import Mathlib

/-!
Verification development for the query-processing pipeline with provider
failover (orchestrator, LLM adapter ring, JSON-tolerant analysis parsing,
web-search / weather / agriculture data-source clients).

The Python sources are shallowly embedded: pure functions become Lean
functions, external effects (network responses, the LLM text generation)
become explicit oracle parameters, and Python exceptions become
`Except String` errors.  Python dict values are modelled by `PyVal`.
-/

/-! ## Python value model -/

/-- Model of a Python value as produced by `json.loads` and handled by the
pipeline (None, bool, str, int, list, dict).  Numeric payloads that appear
only as opaque data are carried as `int`/`str`; the weather client, which
actually computes with numbers, has its own typed model below. -/
inductive PyVal where
  | none
  | bool (b : Bool)
  | str (s : String)
  | int (n : Int)
  | list (xs : List PyVal)
  | dict (fields : List (String × PyVal))

/-- Python truthiness (`bool(v)`), as used in `if v:` tests. -/
def pyTruthy : PyVal → Bool
  | PyVal.none => false
  | PyVal.bool b => b
  | PyVal.str s => !s.isEmpty
  | PyVal.int n => n != 0
  | PyVal.list xs => !xs.isEmpty
  | PyVal.dict fs => !fs.isEmpty

/-- First-match association-list lookup; Python dicts have unique keys, so
this is exactly `dict.__getitem__` membership. -/
def dictGet : List (String × PyVal) → String → Option PyVal
  | [], _ => Option.none
  | (k, v) :: rest, key => if k = key then Option.some v else dictGet rest key

/-- `d.get(k)` (None when missing).  All call sites in the sources invoke
`.get` on dict receivers; a non-dict receiver (which would raise
`AttributeError` in Python) is outside the hypotheses of every theorem
below. -/
def pyGet (d : PyVal) (k : String) : Option PyVal :=
  match d with
  | PyVal.dict fs => dictGet fs k
  | _ => Option.none

/-- `d.get(k, default)`. -/
def pyGetD (d : PyVal) (k : String) (dflt : PyVal) : PyVal :=
  (pyGet d k).getD dflt

/-- `d[k]`: raises `KeyError` when the key is missing and `TypeError` when
the receiver is not a dict. -/
def pyIndexKey (d : PyVal) (k : String) : Except String PyVal :=
  match d with
  | PyVal.dict fs =>
    match dictGet fs k with
    | Option.some v => Except.ok v
    | Option.none => Except.error ("KeyError: " ++ k)
  | _ => Except.error "TypeError: value is not subscriptable"

/-- Python `v == "s"` for a string literal on the right: true only when `v`
is an equal string (comparison against any other type yields False). -/
def pyEqStr (v : PyVal) (s : String) : Bool :=
  match v with
  | PyVal.str t => t = s
  | _ => false

/-- ASCII `str.lower()` (the keyword heuristics only involve ASCII). -/
def lowerStr (s : String) : String :=
  String.map Char.toLower s

/-- `needle` occurs at the head of `hay`. -/
def listStartsWith : List Char → List Char → Bool
  | [], _ => true
  | _ :: _, [] => false
  | a :: as, b :: bs => (a = b) && listStartsWith as bs

/-- `needle` occurs somewhere inside `hay`. -/
def listContainsSeq (needle : List Char) : List Char → Bool
  | [] => listStartsWith needle []
  | c :: rest => listStartsWith needle (c :: rest) || listContainsSeq needle rest

/-- Python `needle in hay` on strings: substring containment. -/
def pyIn (needle hay : String) : Bool :=
  listContainsSeq needle.toList hay.toList

/-- Python `str.split()` with no argument: split on whitespace runs,
dropping empty pieces. -/
def pySplitWs (s : String) : List String :=
  (s.split Char.isWhitespace).filter (fun w => !w.isEmpty)

/-! ## src/utils/json_parser.py -/

/-- The character `{` (written via its code point to keep brace characters
out of string/char literals). -/
def openBraceChar : Char := Char.ofNat 123

/-- The character `}`. -/
def closeBraceChar : Char := Char.ofNat 125

/-- `re.search(r'\{[\s\S]*\}', text)`: the (greedy) match runs from the
first `{` to the last `}`, and exists iff some `}` occurs after the first
`{`. -/
def reSearchBraces (s : List Char) : Option (List Char) :=
  match s.findIdx? (fun c => c = openBraceChar),
        (s.reverse.findIdx? (fun c => c = closeBraceChar)) with
  | Option.some i, Option.some k =>
    let j := s.length - 1 - k
    if i < j then Option.some ((s.drop i).take (j - i + 1)) else Option.none
  | _, _ => Option.none

/-- One pass of `re.sub(r',\s*C', 'C', text)` for a closing character `C`
(`}` or `]`): every comma followed by whitespace and `C` collapses to `C`. -/
def fixTrailingCommas (close : Char) : List Char → List Char
  | [] => []
  | c :: rest =>
    if c = ',' then
      let ws := rest.takeWhile Char.isWhitespace
      match h : rest.drop ws.length with
      | [] => c :: fixTrailingCommas close rest
      | b :: tail =>
        if b = close then close :: fixTrailingCommas close tail
        else c :: fixTrailingCommas close rest
    else c :: fixTrailingCommas close rest
termination_by l => l.length
decreasing_by
  · simp only [List.length_cons]; omega
  · have htail : tail.length < rest.length + 1 := by
      have hd : (rest.drop ws.length).length ≤ rest.length := by
        simpa using List.length_drop_le ws.length rest
      rw [h] at hd
      simp only [List.length_cons] at hd
      omega
    simpa using htail
  · simp only [List.length_cons]; omega
  · simp only [List.length_cons]; omega

/-- Python `default or {}` (used by `safe_json_loads` on failure). -/
def pyOrEmptyDict (dflt : Option PyVal) : PyVal :=
  match dflt with
  | Option.some d => if pyTruthy d then d else PyVal.dict []
  | Option.none => PyVal.dict []

/-- `safe_json_loads(text, default)` from src/utils/json_parser.py.
`jl` is the stdlib `json.loads` oracle: `some v` on success, `none` on
`JSONDecodeError`.  On decode failure the routine tries the brace-matched
substring, then the trailing-comma repair, then gives up with
`default or {}`. -/
def safe_json_loads (jl : String → Option PyVal) (text : String)
    (dflt : Option PyVal) : PyVal :=
  if text.isEmpty then pyOrEmptyDict dflt else
  let t := text.trim
  if t.isEmpty then pyOrEmptyDict dflt else
  match jl t with
  | Option.some v => v
  | Option.none =>
    let afterExtract : Option PyVal :=
      match reSearchBraces t.toList with
      | Option.some sub => jl (String.mk sub)
      | Option.none => Option.none
    match afterExtract with
    | Option.some v => v
    | Option.none =>
      let fixedText := String.mk
        (fixTrailingCommas ']' (fixTrailingCommas closeBraceChar t.toList))
      match jl fixedText with
      | Option.some v => v
      | Option.none => pyOrEmptyDict dflt

/-- `safe_extract_json_from_text(text)` from src/utils/json_parser.py:
find the brace-matched region and run `safe_json_loads` on it; `None` when
the text is empty or has no brace-matched region. -/
def safe_extract_json_from_text (jl : String → Option PyVal)
    (text : String) : Option PyVal :=
  if text.isEmpty then Option.none else
  match reSearchBraces text.toList with
  | Option.some sub => Option.some (safe_json_loads jl (String.mk sub) Option.none)
  | Option.none => Option.none

/-! ## src/integrations/gemini.py -/

/-- The heuristic default analysis returned by
`GeminiIntegration.analyze_query` when the provider call or the JSON parse
fails (lines 77-88 of gemini.py): literal keyword matching on the
lowercased raw query. -/
def default_analysis (query : String) : PyVal :=
  let q := lowerStr query
  PyVal.dict [
    ("intent", PyVal.str query),
    ("needsWebSearch", PyVal.bool (pyIn "latest" q || pyIn "recent" q || pyIn "current" q)),
    ("needsWeatherData", PyVal.bool
      (["weather", "temperature", "rain", "forecast", "climate"].any (fun w => pyIn w q))),
    ("needsAgriculturalData", PyVal.bool
      (["crop", "farm", "agriculture", "soil", "planting"].any (fun w => pyIn w q))),
    ("needsCodeGeneration", PyVal.bool
      (["code", "script", "generate", "python", "pyqgis"].any (fun w => pyIn w q))),
    ("codeType",
      if pyIn "pyqgis" q || pyIn "qgis" q then PyVal.str "pyqgis"
      else if pyIn "python" q then PyVal.str "python"
      else PyVal.none),
    ("location", PyVal.none),
    ("timeframe", PyVal.none),
    ("searchKeywords", PyVal.list
      (((pySplitWs query).filter (fun w => 3 < w.length)).take 5 |>.map PyVal.str)),
    ("requiresCurrentData", PyVal.bool false)
  ]

/-- `GeminiIntegration.analyze_query`.  `gen` is the outcome of
`generate_content` (the response text, or the raised exception's message);
`jl` is the `json.loads` oracle.  A raised exception or a parse chain that
yields nothing truthy falls back to `default_analysis`; the prompt text is
not modelled since it only feeds the external LLM. -/
def analyze_query (jl : String → Option PyVal) (gen : Except String String)
    (query : String) : PyVal :=
  match gen with
  | Except.error _ => default_analysis query
  | Except.ok text =>
    let p1 := safe_extract_json_from_text jl text
    match p1 with
    | Option.some v =>
      if pyTruthy v then v
      else
        let p2 := safe_json_loads jl text Option.none
        if pyTruthy p2 then p2 else default_analysis query
    | Option.none =>
      let p2 := safe_json_loads jl text Option.none
      if pyTruthy p2 then p2 else default_analysis query

mutual

/-- `json.dumps` on a `PyVal` (used only for the agricultural context
section; string escaping and the `indent=2` layout of the Python original
are abstracted, the serialized structure is faithful). -/
def pyJsonDumps : PyVal → String
  | PyVal.none => "null"
  | PyVal.bool b => if b then "true" else "false"
  | PyVal.int n => toString n
  | PyVal.str s => "\"" ++ s ++ "\""
  | PyVal.list xs => "[" ++ String.intercalate ", " (pyJsonDumpsList xs) ++ "]"
  | PyVal.dict fs =>
    String.singleton openBraceChar ++
      String.intercalate ", " (pyJsonDumpsFields fs) ++
      String.singleton closeBraceChar

def pyJsonDumpsList : List PyVal → List String
  | [] => []
  | v :: rest => pyJsonDumps v :: pyJsonDumpsList rest

def pyJsonDumpsFields : List (String × PyVal) → List String
  | [] => []
  | kv :: rest => ("\"" ++ kv.1 ++ "\": " ++ pyJsonDumps kv.2) :: pyJsonDumpsFields rest

end

/-- Python `str(v)` as interpolated by the f-strings of
`synthesize_response` (container repr details abstracted via the JSON
form; the claims only interpolate strings and numbers). -/
def pyStr : PyVal → String
  | PyVal.none => "None"
  | PyVal.bool b => if b then "True" else "False"
  | PyVal.str s => s
  | PyVal.int n => toString n
  | v => pyJsonDumps v

/-- Python `v + '\n'` for the summary line: requires a str. -/
def pyAsStr (v : PyVal) : Except String String :=
  match v with
  | PyVal.str s => Except.ok s
  | _ => Except.error "TypeError: can only concatenate str"

/-- The web-sources loop of `synthesize_response`
(`for idx, source in enumerate(..., 1)`). -/
def formatWebSources : Nat → List PyVal → Except String String
  | _, [] => Except.ok ""
  | idx, s :: rest => do
    let title ← pyIndexKey s "title"
    let snippet ← pyIndexKey s "snippet"
    let restStr ← formatWebSources (idx + 1) rest
    Except.ok (toString idx ++ ". " ++ pyStr title ++ ": " ++ pyStr snippet ++ "\n" ++ restStr)

/-- The web-search section of the `context_info` accumulation of
`GeminiIntegration.synthesize_response` (gemini.py lines 107-114), taken
only when `has_web_data`; the body uses direct `[...]` indexing, which
can raise `KeyError`. -/
def web_context (data : PyVal) (has_web_data : Bool) : Except String String :=
  if has_web_data then
    match pyIndexKey data "sources" with
    | Except.error e => Except.error e
    | Except.ok srcs =>
      match pyIndexKey srcs "webSearch" with
      | Except.error e => Except.error e
      | Except.ok web_data =>
        let summaryPart :=
          if pyTruthy (pyGetD (pyGetD web_data "results" (PyVal.dict [])) "summary" PyVal.none) then
            match pyIndexKey web_data "results" with
            | Except.error e => Except.error e
            | Except.ok results =>
              match pyIndexKey results "summary" with
              | Except.error e => Except.error e
              | Except.ok summary =>
                match pyAsStr summary with
                | Except.error e => Except.error e
                | Except.ok s => Except.ok (s ++ "\n")
          else Except.ok ""
        match summaryPart with
        | Except.error e => Except.error e
        | Except.ok sp =>
          let sourcesPart :=
            if pyTruthy (pyGetD (pyGetD web_data "results" (PyVal.dict [])) "sources" PyVal.none) then
              match pyIndexKey web_data "results" with
              | Except.error e => Except.error e
              | Except.ok results =>
                match pyIndexKey results "sources" with
                | Except.error e => Except.error e
                | Except.ok srcList =>
                  match srcList with
                  | PyVal.list items => formatWebSources 1 items
                  | _ => Except.error "TypeError: value is not iterable"
            else Except.ok ""
          match sourcesPart with
          | Except.error e => Except.error e
          | Except.ok sl => Except.ok ("\n**Web Search Results:**\n" ++ sp ++ sl)
  else Except.ok ""

/-- The weather section (gemini.py lines 116-122), taken only when
`has_weather_data`; direct `[...]` indexing throughout. -/
def weather_context (data : PyVal) (has_weather_data : Bool) : Except String String :=
  if has_weather_data then
    match pyIndexKey data "sources" with
    | Except.error e => Except.error e
    | Except.ok srcs =>
      match pyIndexKey srcs "weather" with
      | Except.error e => Except.error e
      | Except.ok weather =>
        match pyIndexKey weather "location" with
        | Except.error e => Except.error e
        | Except.ok location =>
          match pyIndexKey weather "current" with
          | Except.error e => Except.error e
          | Except.ok current =>
            match pyIndexKey current "temperature" with
            | Except.error e => Except.error e
            | Except.ok temperature =>
              match pyIndexKey current "description" with
              | Except.error e => Except.error e
              | Except.ok description =>
                match pyIndexKey current "humidity" with
                | Except.error e => Except.error e
                | Except.ok humidity =>
                  Except.ok ("\n**Weather Data:**\n" ++ "Location: " ++ pyStr location ++ "\n" ++
                    "Temperature: " ++ pyStr temperature ++ "Â°C\n" ++
                    "Conditions: " ++ pyStr description ++ "\n" ++
                    "Humidity: " ++ pyStr humidity ++ "%\n")
  else Except.ok ""

/-- The agricultural section (gemini.py lines 124-127), taken only when
`has_agri_data`. -/
def agri_context (data : PyVal) (has_agri_data : Bool) : Except String String :=
  if has_agri_data then
    match pyIndexKey data "sources" with
    | Except.error e => Except.error e
    | Except.ok srcs =>
      match pyIndexKey srcs "agriculture" with
      | Except.error e => Except.error e
      | Except.ok agri =>
        match pyIndexKey agri "data" with
        | Except.error e => Except.error e
        | Except.ok agriData =>
          Except.ok ("\n**Agricultural Data:**\n" ++ pyJsonDumps agriData ++ "\n")
  else Except.ok ""

/-- The `context_info` accumulation of
`GeminiIntegration.synthesize_response` (gemini.py lines 101-127): the
`has_*` flags come from missing-key-tolerant `.get` chains, each taken
section appends its block, and a raised `KeyError` inside a section
propagates. -/
def build_context_info (data : PyVal) : Except String String :=
  let sourcesD := pyGetD data "sources" (PyVal.dict [])
  let has_web_data := pyTruthy (pyGetD (pyGetD sourcesD "webSearch" (PyVal.dict [])) "success" (PyVal.bool false))
  let has_weather_data := pyTruthy (pyGetD (pyGetD sourcesD "weather" (PyVal.dict [])) "success" (PyVal.bool false))
  let has_agri_data := pyTruthy (pyGetD (pyGetD sourcesD "agriculture" (PyVal.dict [])) "success" (PyVal.bool false))
  match web_context data has_web_data with
  | Except.error e => Except.error e
  | Except.ok webPart =>
    match weather_context data has_weather_data with
    | Except.error e => Except.error e
    | Except.ok weatherPart =>
      match agri_context data has_agri_data with
      | Except.error e => Except.error e
      | Except.ok agriPart => Except.ok (webPart ++ weatherPart ++ agriPart)

/-- The synthesis prompt (gemini.py lines 135-151). -/
def synthesisPrompt (query context_msg : String) : String :=
  "You are Gemini, a friendly AI assistant having a natural conversation with a user. You have access to real-time data sources and can provide up-to-date, accurate information.\n\nThe user asked: \"" ++ query ++ "\"\n\n" ++ context_msg ++
  "\n\n**Instructions for your response:**\n- Have a natural, conversational tone - like you\x27re chatting with a friend\n- Synthesize the data into a clear, coherent answer\n- When you have current data (from web search, weather, etc.), mention it naturally\n  Example: \"According to recent reports...\" or \"The latest weather data shows...\"\n- Be specific and helpful\n- Use formatting (bullet points, sections) when it makes the answer clearer\n- If multiple sources provided data, weave them together smoothly\n- Be encouraging and supportive\n\nProvide your response in a natural, friendly way:"

/-- `GeminiIntegration.synthesize_response`: build the context from the
Aggregate, call the model (`gen` oracle), and degrade a generation
exception to a fixed apology string.  Only the `generate_content` call is
inside `try`, so `KeyError`s from the context build do propagate. -/
def synthesize_response (gen : String → Except String String)
    (query : String) (data : PyVal) : Except String String :=
  match build_context_info data with
  | Except.error e => Except.error e
  | Except.ok context_info =>
    let context_msg :=
      if !context_info.isEmpty then
        "I\x27ve gathered this real-time information for you:\n" ++ context_info
      else "I can answer this from my general knowledge."
    match gen (synthesisPrompt query context_msg) with
    | Except.ok t => Except.ok t
    | Except.error _ =>
      Except.ok "I encountered an error while processing your query. Please try again or rephrase your question."

/-! ## src/integrations/web_search.py -/

/-- One entry of `results.sources` in the search envelope. -/
structure SearchSource where
  title : String
  url : String
  snippet : String

/-- The `results` payload of the search envelope. -/
structure SearchResults where
  summary : String
  sources : List SearchSource

/-- The uniform search envelope returned by every tier.  Live tiers leave
the `mock` key absent, which reads back as falsy; it is modelled as a
`Bool` field that live tiers set to `false`. -/
structure SearchResult where
  success : Bool
  source : String
  query : String
  results : SearchResults
  mock : Bool
  timestamp : String

/-- Configuration state of `WebSearchIntegration.__init__`: Poe credential
and availability of the optional `ddgs` / `wikipedia` imports. -/
structure WebSearchConfig where
  poe_api_key : Option String
  ddgs_enabled : Bool
  wikipedia_enabled : Bool

/-- Network outcomes of the three live tiers (each helper catches its own
exceptions and returns `None` on any failure, so an outcome is `Option`),
plus `datetime.now().isoformat()`. -/
structure WebSearchOracles where
  poe_outcome : Option SearchResult
  ddgs_outcome : Option SearchResult
  wiki_outcome : Option SearchResult
  now : String

/-- Truthiness of the optional Poe key (`if not self.poe_api_key`):
missing or empty is falsy. -/
def pyTruthyOptStr (o : Option String) : Bool :=
  match o with
  | Option.some s => !s.isEmpty
  | Option.none => false

/-- `WebSearchIntegration._search_poe_bot`: `None` without a key,
otherwise the network outcome (all its exceptions are caught into
`None`).  The query/keyword enhancement feeds only the network request,
which the oracle abstracts. -/
def _search_poe_bot (cfg : WebSearchConfig) (o : WebSearchOracles)
    (_query : String) (_keywords : List String) : Option SearchResult :=
  if !pyTruthyOptStr cfg.poe_api_key then Option.none else o.poe_outcome

/-- `WebSearchIntegration._search_duckduckgo`. -/
def _search_duckduckgo (cfg : WebSearchConfig) (o : WebSearchOracles)
    (_query : String) (_keywords : List String) : Option SearchResult :=
  if !cfg.ddgs_enabled then Option.none else o.ddgs_outcome

/-- `WebSearchIntegration._search_wikipedia`. -/
def _search_wikipedia (cfg : WebSearchConfig) (o : WebSearchOracles)
    (_query : String) : Option SearchResult :=
  if !cfg.wikipedia_enabled then Option.none else o.wiki_outcome

/-- `WebSearchIntegration._mock_search`: the deterministic mock envelope. -/
def _mock_search (now : String) (query : String) : SearchResult :=
  { success := true
    source := "mock"
    query := query
    results :=
      { summary := "Mock search results for: \"" ++ query ++ "\". Configure search providers for real results."
        sources := [
          { title := "Example Source 1"
            url := "https://example.com/1"
            snippet := "This is a mock search result. Configure Poe API key, install ddgs, or install wikipedia package for real results." },
          { title := "Example Source 2"
            url := "https://example.com/2"
            snippet := "Mock data for testing purposes." }] }
    mock := true
    timestamp := now }

/-- `WebSearchIntegration.search`: Poe bot, then DuckDuckGo, then
Wikipedia, each only when configured/available and only kept when it
returns a successful envelope; otherwise the deterministic mock. -/
def webSearchSearch (cfg : WebSearchConfig) (o : WebSearchOracles)
    (query : String) (keywords : List String) : SearchResult :=
  let tryPoe : Option SearchResult :=
    if pyTruthyOptStr cfg.poe_api_key then
      match _search_poe_bot cfg o query keywords with
      | Option.some r => if r.success then Option.some r else Option.none
      | Option.none => Option.none
    else Option.none
  match tryPoe with
  | Option.some r => r
  | Option.none =>
    let tryDdg : Option SearchResult :=
      if cfg.ddgs_enabled then
        match _search_duckduckgo cfg o query keywords with
        | Option.some r => if r.success then Option.some r else Option.none
        | Option.none => Option.none
      else Option.none
    match tryDdg with
    | Option.some r => r
    | Option.none =>
      let tryWiki : Option SearchResult :=
        if cfg.wikipedia_enabled then
          match _search_wikipedia cfg o query with
          | Option.some r => if r.success then Option.some r else Option.none
          | Option.none => Option.none
        else Option.none
      match tryWiki with
      | Option.some r => r
      | Option.none => _mock_search o.now query

/-! ## src/integrations/regional_data.py -/

/-- Outcome of one `httpx` request as the client code observes it:
a transport error (`httpx.RequestError`), a bad status raised by
`raise_for_status` (`httpx.HTTPStatusError`, carrying both the status code
and the exception's `str`), a body whose `response.json()` raised but that
`safe_json_loads` may still recover, or a parsed body. -/
inductive HttpResp (β : Type) where
  | reqError (e : String)
  | statusError (code : Nat) (e : String)
  | parseError (e : String) (recovered : Option β)
  | ok (body : β)

/-- One geocoding result entry (latitude/longitude/name are accessed with
`[...]`, country/admin1 with `.get`). -/
structure GeoEntry where
  latitude : ℚ
  longitude : ℚ
  name : String
  country : Option String
  admin1 : Option String

/-- Parsed geocoding response body; an absent or empty `results` key is an
empty list. -/
structure GeoBody where
  results : List GeoEntry

/-- The coordinates dict returned by `_geocode_location`. -/
structure GeoResult where
  latitude : ℚ
  longitude : ℚ
  name : String
  country : String
  admin1 : String

/-- The zero-results / first-entry logic of `_geocode_location`.  A raised
`ValueError('Location "x" not found')` is re-caught by the function's own
`except Exception` clause, which wraps it as `Geocoding failed: ...`. -/
def geocodeFromBody (body : GeoBody) (location : String) : Except String GeoResult :=
  match body.results with
  | [] => Except.error ("Geocoding failed: Location \"" ++ location ++ "\" not found")
  | r :: _ =>
    Except.ok { latitude := r.latitude, longitude := r.longitude, name := r.name,
                country := r.country.getD "", admin1 := r.admin1.getD "" }

/-- `RegionalDataIntegration._geocode_location`: every failure mode is
converted to a `ValueError` with a mode-specific message (transport,
HTTP status, unrecoverable parse, zero results). -/
def _geocode_location (resp : HttpResp GeoBody) (location : String) :
    Except String GeoResult :=
  match resp with
  | HttpResp.reqError e => Except.error ("Geocoding request failed: " ++ e)
  | HttpResp.statusError code _ => Except.error ("Geocoding HTTP error: " ++ toString code)
  | HttpResp.parseError e rec =>
    match rec with
    | Option.none =>
      Except.error ("Geocoding failed: Failed to parse geocoding response: " ++ e)
    | Option.some body => geocodeFromBody body location
  | HttpResp.ok body => geocodeFromBody body location

/-- The WMO weather-code lookup table of `_get_weather_description`. -/
def weatherDescriptions : List (Int × String) :=
  [(0, "clear sky"), (1, "mainly clear"), (2, "partly cloudy"), (3, "overcast"),
   (45, "foggy"), (48, "depositing rime fog"),
   (51, "light drizzle"), (53, "moderate drizzle"), (55, "dense drizzle"),
   (61, "slight rain"), (63, "moderate rain"), (65, "heavy rain"),
   (71, "slight snow"), (73, "moderate snow"), (75, "heavy snow"), (77, "snow grains"),
   (80, "slight rain showers"), (81, "moderate rain showers"), (82, "violent rain showers"),
   (85, "slight snow showers"), (86, "heavy snow showers"),
   (95, "thunderstorm"), (96, "thunderstorm with slight hail"),
   (99, "thunderstorm with heavy hail")]

/-- `RegionalDataIntegration._get_weather_description`:
`descriptions.get(code, 'unknown')`. -/
def _get_weather_description (code : Int) : String :=
  (weatherDescriptions.lookup code).getD "unknown"

/-- The `current` block of the weather payload.  Fields read with
`current['k']` are required; fields read with `current.get('k', 0)` are
optional.  Numeric values are modelled as exact rationals. -/
structure CurrentData where
  temperature_2m : ℚ
  relative_humidity_2m : ℚ
  apparent_temperature : ℚ
  pressure_msl : ℚ
  weather_code : Int
  wind_speed_10m : ℚ
  wind_direction_10m : Option ℚ
  precipitation : Option ℚ
  rain : Option ℚ
  showers : Option ℚ
  snowfall : Option ℚ

/-- The `hourly` block: `time`, `temperature_2m`, `relative_humidity_2m`
and `weather_code` are indexed directly (`hourly['k'][i]`), the rest are
read through the `hourly.get('k', [0])[i] if i < len(hourly.get('k', []))
else 0` guard and may be absent. -/
structure HourlyData where
  time : List String
  temperature_2m : List ℚ
  relative_humidity_2m : List ℚ
  weather_code : List Int
  precipitation : Option (List ℚ)
  precipitation_probability : Option (List ℚ)
  rain : Option (List ℚ)
  showers : Option (List ℚ)
  snowfall : Option (List ℚ)
  wind_speed_10m : Option (List ℚ)

/-- The `daily` block: `time` is checked for membership and then indexed
directly; every other array goes through the guarded default-0 pattern. -/
structure DailyData where
  time : Option (List String)
  temperature_2m_max : Option (List ℚ)
  temperature_2m_min : Option (List ℚ)
  precipitation_sum : Option (List ℚ)
  rain_sum : Option (List ℚ)
  showers_sum : Option (List ℚ)
  snowfall_sum : Option (List ℚ)
  precipitation_hours : Option (List ℚ)
  precipitation_probability_max : Option (List ℚ)
  weather_code : Option (List Int)

/-- Parsed weather payload; `current`/`hourly` presence is checked
explicitly by the code, `daily` defaults to `{}` (modelled `none`). -/
structure WeatherBody where
  current : Option CurrentData
  hourly : Option HourlyData
  daily : Option DailyData

/-- `x.get(k, [0])[i] if i < len(x.get(k, [])) else 0`: an absent array or
an index beyond its length yields 0. -/
def hourlyOptField (o : Option (List ℚ)) (i : Nat) : ℚ :=
  match o with
  | Option.none => 0
  | Option.some a => if i < a.length then a.getD i 0 else 0

/-- Same guarded access for the integer `weather_code` arrays. -/
def hourlyOptCode (o : Option (List Int)) (i : Nat) : Int :=
  match o with
  | Option.none => 0
  | Option.some a => if i < a.length then a.getD i 0 else 0

/-- Python `l[i]` on a list: `IndexError` when out of range. -/
def pyListIndex {α : Type} (a : List α) (i : Nat) : Except String α :=
  match a.get? i with
  | Option.some v => Except.ok v
  | Option.none => Except.error "list index out of range"

/-- One entry of `hourly_forecast` (regional_data.py lines 161-172). -/
structure HourlyEntry where
  datetime : String
  temp : ℚ
  description : String
  humidity : ℚ
  precipitation : ℚ
  precipitation_probability : ℚ
  rain : ℚ
  showers : ℚ
  snowfall : ℚ
  wind_speed : ℚ

/-- Build the `i`-th hourly entry, evaluating the dict values in source
order: the four direct `hourly['k'][i]` accesses can raise `IndexError`,
the guarded accesses cannot. -/
def buildHourlyEntry (h : HourlyData) (i : Nat) : Except String HourlyEntry :=
  match pyListIndex h.time i with
  | Except.error e => Except.error e
  | Except.ok dt =>
    match pyListIndex h.temperature_2m i with
    | Except.error e => Except.error e
    | Except.ok t =>
      match pyListIndex h.weather_code i with
      | Except.error e => Except.error e
      | Except.ok wc =>
        match pyListIndex h.relative_humidity_2m i with
        | Except.error e => Except.error e
        | Except.ok hum =>
          Except.ok
            { datetime := dt
              temp := t
              description := _get_weather_description wc
              humidity := hum
              precipitation := hourlyOptField h.precipitation i
              precipitation_probability := hourlyOptField h.precipitation_probability i
              rain := hourlyOptField h.rain i
              showers := hourlyOptField h.showers i
              snowfall := hourlyOptField h.snowfall i
              wind_speed := hourlyOptField h.wind_speed_10m i }

/-- The value of the `i`-th hourly entry when every required array is long
enough (what the loop produces when no `IndexError` occurs). -/
def hourlyEntryOf (h : HourlyData) (i : Nat) : HourlyEntry :=
  { datetime := h.time.getD i ""
    temp := h.temperature_2m.getD i 0
    description := _get_weather_description (h.weather_code.getD i 0)
    humidity := h.relative_humidity_2m.getD i 0
    precipitation := hourlyOptField h.precipitation i
    precipitation_probability := hourlyOptField h.precipitation_probability i
    rain := hourlyOptField h.rain i
    showers := hourlyOptField h.showers i
    snowfall := hourlyOptField h.snowfall i
    wind_speed := hourlyOptField h.wind_speed_10m i }

/-- The hourly `for i in range(min(24, len(hourly['time'])))` append loop:
the first raised `IndexError` aborts it. -/
def buildHourlyList (h : HourlyData) : List Nat → Except String (List HourlyEntry)
  | [] => Except.ok []
  | i :: rest =>
    match buildHourlyEntry h i with
    | Except.error e => Except.error e
    | Except.ok entry =>
      match buildHourlyList h rest with
      | Except.error e => Except.error e
      | Except.ok entries => Except.ok (entry :: entries)

/-- `hourly_forecast` construction over the first `min(24, len(time))`
indices. -/
def buildHourlyForecast (h : HourlyData) : Except String (List HourlyEntry) :=
  buildHourlyList h (List.range (min 24 h.time.length))

/-- One entry of `daily_forecast` (regional_data.py lines 178-190). -/
structure DailyEntry where
  date : String
  temp_max : ℚ
  temp_min : ℚ
  precipitation_sum : ℚ
  rain_sum : ℚ
  showers_sum : ℚ
  snowfall_sum : ℚ
  precipitation_hours : ℚ
  precipitation_probability_max : ℚ
  weather_code : Int
  description : String

/-- Build the `i`-th daily entry; `i` ranges over
`range(min(7, len(daily['time'])))` so the direct `daily['time'][i]`
access is in bounds (`getD` with a dummy default). -/
def buildDailyEntry (ts : List String) (d : DailyData) (i : Nat) : DailyEntry :=
  { date := ts.getD i ""
    temp_max := hourlyOptField d.temperature_2m_max i
    temp_min := hourlyOptField d.temperature_2m_min i
    precipitation_sum := hourlyOptField d.precipitation_sum i
    rain_sum := hourlyOptField d.rain_sum i
    showers_sum := hourlyOptField d.showers_sum i
    snowfall_sum := hourlyOptField d.snowfall_sum i
    precipitation_hours := hourlyOptField d.precipitation_hours i
    precipitation_probability_max := hourlyOptField d.precipitation_probability_max i
    weather_code := hourlyOptCode d.weather_code i
    description := _get_weather_description (hourlyOptCode d.weather_code i) }

/-- `daily_forecast`: built only when `daily` is truthy and has a `time`
key; otherwise the list stays empty. -/
def buildDailyForecast (daily : Option DailyData) : List DailyEntry :=
  match daily with
  | Option.none => []
  | Option.some d =>
    match d.time with
    | Option.none => []
    | Option.some ts => (List.range (min 7 ts.length)).map (buildDailyEntry ts d)

/-- `sum([h.get(k, 0) for h in hourly_forecast[:24]])`. -/
def todayTotal (f : HourlyEntry → ℚ) (hf : List HourlyEntry) : ℚ :=
  ((hf.take 24).map f).sum

/-- `sum([h.get(k, 0) for h in hourly_forecast])`. -/
def next24hTotal (f : HourlyEntry → ℚ) (hf : List HourlyEntry) : ℚ :=
  (hf.map f).sum

/-- Python `round(x, 2)`; float round-half-even is abstracted as exact
rational rounding (the claims do not depend on halfway cases). -/
def round2 (q : ℚ) : ℚ :=
  (round (q * 100) : ℤ) / 100

/-- The `coordinates` sub-dict of the success envelope. -/
structure Coordinates where
  latitude : ℚ
  longitude : ℚ

/-- The `current` sub-dict of the success envelope. -/
structure CurrentOut where
  temperature : ℚ
  feelsLike : ℚ
  humidity : ℚ
  pressure : ℚ
  description : String
  windSpeed : ℚ
  windDirection : ℚ
  precipitation : ℚ
  rain : ℚ
  showers : ℚ
  snowfall : ℚ

/-- `rainfall.current`. -/
structure RainfallCurrent where
  precipitation : ℚ
  rain : ℚ
  showers : ℚ
  snowfall : ℚ

/-- `rainfall.today`. -/
structure RainfallToday where
  total_precipitation : ℚ
  total_rain : ℚ
  total_showers : ℚ
  unit : String

/-- `rainfall.next_24h`. -/
structure RainfallNext24h where
  forecasted_precipitation : ℚ
  forecasted_rain : ℚ
  forecasted_showers : ℚ
  unit : String

/-- `rainfall`. -/
structure RainfallOut where
  current : RainfallCurrent
  today : RainfallToday
  next_24h : RainfallNext24h

/-- The `success: True` weather envelope. -/
structure WeatherSuccess where
  location : String
  coordinates : Coordinates
  current : CurrentOut
  rainfall : RainfallOut
  hourly_forecast : List HourlyEntry
  daily_forecast : List DailyEntry
  source : String
  timestamp : String

/-- Oracles for one `get_weather_data` call: the geocoding response, the
Open-Meteo forecast response, and `datetime.now().isoformat()`. -/
structure WeatherOracles where
  geocode_response : HttpResp GeoBody
  weather_response : HttpResp WeatherBody
  now : String

/-- The body of `RegionalDataIntegration.get_weather_data`'s `try` block:
geocode, fetch, validate, build forecasts, aggregate rainfall, assemble
the envelope.  Any raised exception becomes `Except.error`. -/
def get_weather_data_core (o : WeatherOracles) (location : String) :
    Except String WeatherSuccess :=
  match _geocode_location o.geocode_response location with
  | Except.error e => Except.error e
  | Except.ok coords =>
  match (match o.weather_response with
    | HttpResp.reqError e => Except.error e
    | HttpResp.statusError _ e => Except.error e
    | HttpResp.parseError e rec =>
      match rec with
      | Option.some b => Except.ok b
      | Option.none => Except.error ("Failed to parse weather API response: " ++ e)
    | HttpResp.ok b => (Except.ok b : Except String WeatherBody)) with
  | Except.error e => Except.error e
  | Except.ok data =>
  match data.current, data.hourly with
  | Option.some current, Option.some hourly =>
    match buildHourlyForecast hourly with
    | Except.error e => Except.error e
    | Except.ok hourly_forecast =>
    let daily_forecast := buildDailyForecast data.daily
    let current_precipitation := current.precipitation.getD 0
    let current_rain := current.rain.getD 0
    let current_showers := current.showers.getD 0
    let current_snowfall := current.snowfall.getD 0
    let today_precipitation := todayTotal (fun e => e.precipitation) hourly_forecast
    let today_rain := todayTotal (fun e => e.rain) hourly_forecast
    let today_showers := todayTotal (fun e => e.showers) hourly_forecast
    let next_24h_precipitation := next24hTotal (fun e => e.precipitation) hourly_forecast
    let next_24h_rain := next24hTotal (fun e => e.rain) hourly_forecast
    let next_24h_showers := next24hTotal (fun e => e.showers) hourly_forecast
    Except.ok
      { location := coords.name ++ ", " ++ coords.country
        coordinates := { latitude := coords.latitude, longitude := coords.longitude }
        current :=
          { temperature := current.temperature_2m
            feelsLike := current.apparent_temperature
            humidity := current.relative_humidity_2m
            pressure := current.pressure_msl
            description := _get_weather_description current.weather_code
            windSpeed := current.wind_speed_10m
            windDirection := current.wind_direction_10m.getD 0
            precipitation := current_precipitation
            rain := current_rain
            showers := current_showers
            snowfall := current_snowfall }
        rainfall :=
          { current :=
              { precipitation := current_precipitation, rain := current_rain,
                showers := current_showers, snowfall := current_snowfall }
            today :=
              { total_precipitation := round2 today_precipitation
                total_rain := round2 today_rain
                total_showers := round2 today_showers
                unit := "mm" }
            next_24h :=
              { forecasted_precipitation := round2 next_24h_precipitation
                forecasted_rain := round2 next_24h_rain
                forecasted_showers := round2 next_24h_showers
                unit := "mm" } }
        hourly_forecast := hourly_forecast
        daily_forecast := daily_forecast
        source := "Open-Meteo"
        timestamp := o.now }
  | _, _ => Except.error "Invalid weather API response format"

/-- The result envelope of `get_weather_data`: either the success dict or
the `{success: False, error, location, message}` failure dict. -/
inductive WeatherEnvelope where
  | success (r : WeatherSuccess)
  | failure (error : String) (location : String) (message : String)

/-- `RegionalDataIntegration.get_weather_data`: the whole body runs inside
`try`, and `except Exception` converts any raised exception into the
`success: False` envelope, so the function itself never raises. -/
def get_weather_data (o : WeatherOracles) (location : String) : WeatherEnvelope :=
  match get_weather_data_core o location with
  | Except.ok r => WeatherEnvelope.success r
  | Except.error e =>
    WeatherEnvelope.failure e location
      ("Unable to fetch weather data for \"" ++ location ++ "\". " ++ e)

/-! ## src/orchestrator.py -/

/-- An LLM provider adapter as the ring sees it: the three capabilities
reached via `getattr(ai_instance, method_name)`, each either returning a
value or raising (`Except.error`). -/
structure Adapter where
  analyze_query : String → Except String PyVal
  answer_directly : String → Except String String
  synthesize_response : String → PyVal → Except String String

/-- The mutable provider state of `Orchestrator`: the ordered
`(name, adapter)` list, the current-provider label `ai_name`, and the
current adapter `current_ai`.  Generic in the adapter type so that the
ring lemmas hold for any capability signature. -/
structure Orchestrator (A : Type) where
  ai_models : List (String × A)
  ai_name : String
  current_ai : Option A

/-- `self.ai_models.insert(0, self.ai_models.pop(idx))`: move the element
at `idx` to the front (identity when `idx` is out of range, which the
code never reaches). -/
def movePopInsert {A : Type} (l : List A) (idx : Nat) : List A :=
  match l.get? idx with
  | Option.some x => x :: l.eraseIdx idx
  | Option.none => l

/-- The `for idx, (name, ai_instance) in enumerate(self.ai_models)` loop
of `Orchestrator._safe_ai_call`, with the accumulated per-provider error
strings.  On a success at `idx > 0` the three state mutations of the
source run (label, current adapter, move-to-front) before returning. -/
def safe_ai_call_loop {A R : Type} (f : A → Except String R)
    (st : Orchestrator A) :
    List (String × A) → Nat → List String → Except String (R × Orchestrator A)
  | [], _, errors =>
    Except.error ("All AI models failed:\n" ++ String.intercalate "\n" errors)
  | (name, ai) :: rest, idx, errors =>
    match f ai with
    | Except.ok result =>
      if 0 < idx then
        Except.ok (result,
          { ai_models := movePopInsert st.ai_models idx
            ai_name := name
            current_ai := Option.some ai })
      else Except.ok (result, st)
    | Except.error e =>
      safe_ai_call_loop f st rest (idx + 1) (errors ++ [name ++ ": " ++ e])

/-- `Orchestrator._safe_ai_call`: try each adapter in order; promote the
first success (if it was not already at the front); if every adapter
raises, raise the combined `All AI models failed` error. -/
def safe_ai_call {A R : Type} (f : A → Except String R) (st : Orchestrator A) :
    Except String (R × Orchestrator A) :=
  safe_ai_call_loop f st st.ai_models 0 []

/-- `self._safe_ai_call('analyze_query', query)`. -/
def safe_ai_call_analyze (st : Orchestrator Adapter) (query : String) :
    Except String (PyVal × Orchestrator Adapter) :=
  safe_ai_call (fun a => a.analyze_query query) st

/-- `self._safe_ai_call('answer_directly', query)`. -/
def safe_ai_call_answer (st : Orchestrator Adapter) (query : String) :
    Except String (String × Orchestrator Adapter) :=
  safe_ai_call (fun a => a.answer_directly query) st

/-- `self._safe_ai_call('synthesize_response', query, aggregated_data)`. -/
def safe_ai_call_synth (st : Orchestrator Adapter) (query : String)
    (data : PyVal) : Except String (String × Orchestrator Adapter) :=
  safe_ai_call (fun a => a.synthesize_response query data) st

/-- Observable calls made by one `process_query` run: one `ringCall` per
`_safe_ai_call` invocation (not per adapter attempt), one event per
data-source client call, one for the PyQGIS script generation. -/
inductive Event where
  | ringCall (method : String)
  | webSearchCall
  | weatherCall
  | agricultureCall
  | soilCall
  | pyqgisGenerate
  deriving DecidableEq

/-- The data-source collaborators of the pipeline, as outcome oracles:
`self.web_search.search`, `self.regional_data.get_weather_data` /
`get_agricultural_data` / `get_soil_data` (payloads are opaque `PyVal`s at
this level), and the `generate_pyqgis_script`/`save_script` pair, whose
filesystem work can raise. -/
structure DataEnv where
  web_search : String → PyVal → Except String PyVal
  get_weather_data : PyVal → Except String PyVal
  get_agricultural_data : PyVal → Except String PyVal
  get_soil_data : PyVal → Except String PyVal
  save_script : Except String String

/-- The canned reply of the PyQGIS code-generation branch
(orchestrator.py lines 192-207). -/
def pyqgisMessage (filepath : String) : String :=
  "I\x27ve generated a PyQGIS script for automated satellite imagery processing!\n\n**Script saved to:** " ++ filepath ++
  "\n\n**What it does:**\n• Loads all satellite images (Landsat/Sentinel-2) from a folder\n• Calculates NDVI (vegetation health index)\n• Clips images to your regional boundary shapefile\n• Exports results as GeoTIFF files\n\n**Next steps:**\n1. Open QGIS Desktop\n2. Go to Plugins → Python Console\n3. Load and run the script (update the file paths first)\n\nThe script is fully commented and ready to use. Would you like me to explain any specific part of it?"

/-- The web-search fetch of step 2 of `process_query` (orchestrator.py
lines 232-274).  Each of the three conditional fetches catches its own
failure, which is merely logged, leaving the key(s) absent. -/
def web_step (env : DataEnv) (query : String) (analysis : PyVal) :
    List (String × PyVal) × List Event :=
  if pyTruthy (pyGetD analysis "needsWebSearch" PyVal.none) then
    match env.web_search query (pyGetD analysis "searchKeywords"
      (pyGetD analysis "keywords" (PyVal.list [PyVal.str query]))) with
    | Except.ok r => ([("webSearch", r)], [Event.webSearchCall])
    | Except.error _ => ([], [Event.webSearchCall])
  else ([], [])

/-- The weather fetch of step 2 (skipped silently without a truthy
`location`). -/
def weather_step (env : DataEnv) (analysis : PyVal) :
    List (String × PyVal) × List Event :=
  if pyTruthy (pyGetD analysis "needsWeatherData" PyVal.none) &&
     pyTruthy (pyGetD analysis "location" PyVal.none) then
    match env.get_weather_data (pyGetD analysis "location" PyVal.none) with
    | Except.ok r => ([("weather", r)], [Event.weatherCall])
    | Except.error _ => ([], [Event.weatherCall])
  else ([], [])

/-- The agriculture+soil fetch of step 2: one `try` covers both calls, the
soil call runs only if the agriculture call returned, and both keys are
assigned only after both calls return. -/
def agri_step (env : DataEnv) (analysis : PyVal) :
    List (String × PyVal) × List Event :=
  if pyTruthy (pyGetD analysis "needsAgriculturalData" PyVal.none) &&
     pyTruthy (pyGetD analysis "location" PyVal.none) then
    match env.get_agricultural_data (pyGetD analysis "location" PyVal.none) with
    | Except.ok agri =>
      match env.get_soil_data (pyGetD analysis "location" PyVal.none) with
      | Except.ok soil =>
        ([("agriculture", agri), ("soil", soil)], [Event.agricultureCall, Event.soilCall])
      | Except.error _ => ([], [Event.agricultureCall, Event.soilCall])
    | Except.error _ => ([], [Event.agricultureCall])
  else ([], [])

/-- Composition of the three conditional fetches, in source order. -/
def gather_sources (env : DataEnv) (query : String) (analysis : PyVal) :
    List (String × PyVal) × List Event :=
  ((web_step env query analysis).1 ++ (weather_step env analysis).1 ++ (agri_step env analysis).1,
   (web_step env query analysis).2 ++ (weather_step env analysis).2 ++ (agri_step env analysis).2)

/-- `Orchestrator.process_query`: analyze through the ring; branch to the
PyQGIS generator or a direct answer on code-generation requests; answer
directly when no external data is needed; otherwise gather sources and
synthesize.  Returns the result (or the propagated exception), the
post-call ring state, and the trace of calls made. -/
def process_query (env : DataEnv) (st : Orchestrator Adapter) (query : String) :
    Except String String × Orchestrator Adapter × List Event :=
  match safe_ai_call_analyze st query with
  | Except.error e => (Except.error e, st, [Event.ringCall "analyze_query"])
  | Except.ok (analysis, st1) =>
    if pyTruthy (pyGetD analysis "needsCodeGeneration" PyVal.none) then
      if pyEqStr (pyGetD analysis "codeType" PyVal.none) "pyqgis" ||
         pyIn "pyqgis" (lowerStr query) || pyIn "satellite" (lowerStr query) then
        match env.save_script with
        | Except.ok filepath =>
          (Except.ok (pyqgisMessage filepath), st1,
           [Event.ringCall "analyze_query", Event.pyqgisGenerate])
        | Except.error e =>
          (Except.error e, st1, [Event.ringCall "analyze_query", Event.pyqgisGenerate])
      else
        match safe_ai_call_answer st1 query with
        | Except.ok (ans, st2) =>
          (Except.ok ans, st2,
           [Event.ringCall "analyze_query", Event.ringCall "answer_directly"])
        | Except.error e =>
          (Except.error e, st1,
           [Event.ringCall "analyze_query", Event.ringCall "answer_directly"])
    else
      let needs_external_data :=
        pyTruthy (pyGetD analysis "needsWebSearch" PyVal.none) ||
        pyTruthy (pyGetD analysis "needsWeatherData" PyVal.none) ||
        pyTruthy (pyGetD analysis "needsAgriculturalData" PyVal.none)
      if !needs_external_data then
        match safe_ai_call_answer st1 query with
        | Except.ok (ans, st2) =>
          (Except.ok ans, st2,
           [Event.ringCall "analyze_query", Event.ringCall "answer_directly"])
        | Except.error e =>
          (Except.error e, st1,
           [Event.ringCall "analyze_query", Event.ringCall "answer_directly"])
      else
        let gathered := gather_sources env query analysis
        let aggregated_data := PyVal.dict
          [("query", PyVal.str query), ("analysis", analysis),
           ("sources", PyVal.dict gathered.1)]
        match safe_ai_call_synth st1 query aggregated_data with
        | Except.ok (r, st2) =>
          (Except.ok r, st2,
           [Event.ringCall "analyze_query"] ++ gathered.2 ++
             [Event.ringCall "synthesize_response"])
        | Except.error e =>
          (Except.error e, st1,
           [Event.ringCall "analyze_query"] ++ gathered.2 ++
             [Event.ringCall "synthesize_response"])

/-! ## Concrete fixtures used by witness theorems -/

/-- A data environment whose every fetch fails (for exercising branches
that must not touch it). -/
def envAllFail : DataEnv :=
  { web_search := fun _ _ => Except.error "unused"
    get_weather_data := fun _ => Except.error "unused"
    get_agricultural_data := fun _ => Except.error "unused"
    get_soil_data := fun _ => Except.error "unused"
    save_script := Except.error "unused" }

/-- An analysis dict with all four intent flags false. -/
def analysisAllFalse : PyVal :=
  PyVal.dict
    [("needsCodeGeneration", PyVal.bool false),
     ("needsWebSearch", PyVal.bool false),
     ("needsWeatherData", PyVal.bool false),
     ("needsAgriculturalData", PyVal.bool false)]

/-- An adapter that reports `analysisAllFalse` and answers directly. -/
def adapterDirect : Adapter :=
  { analyze_query := fun _ => Except.ok analysisAllFalse
    answer_directly := fun _ => Except.ok "direct answer"
    synthesize_response := fun _ _ => Except.ok "synth" }

/-- A one-adapter ring around `adapterDirect`. -/
def ringDirect : Orchestrator Adapter :=
  { ai_models := [("Gemini", adapterDirect)]
    ai_name := "Gemini"
    current_ai := Option.none }

/-- An analysis dict requesting web search and weather for a location. -/
def analysisWebWeather : PyVal :=
  PyVal.dict
    [("needsCodeGeneration", PyVal.bool false),
     ("needsWebSearch", PyVal.bool true),
     ("needsWeatherData", PyVal.bool true),
     ("needsAgriculturalData", PyVal.bool false),
     ("location", PyVal.str "Paris"),
     ("searchKeywords", PyVal.list [PyVal.str "weather"])]

/-- An adapter that reports `analysisWebWeather`. -/
def adapterWebWeather : Adapter :=
  { analyze_query := fun _ => Except.ok analysisWebWeather
    answer_directly := fun _ => Except.ok "direct answer"
    synthesize_response := fun _ _ => Except.ok "synth" }

/-- A one-adapter ring around `adapterWebWeather`. -/
def ringWebWeather : Orchestrator Adapter :=
  { ai_models := [("Gemini", adapterWebWeather)]
    ai_name := "Gemini"
    current_ai := Option.none }

/-- A data environment where the web search fails but weather succeeds. -/
def envWebFails : DataEnv :=
  { web_search := fun _ _ => Except.error "network down"
    get_weather_data := fun _ => Except.ok (PyVal.dict [("success", PyVal.bool true)])
    get_agricultural_data := fun _ => Except.error "unused"
    get_soil_data := fun _ => Except.error "unused"
    save_script := Except.error "unused" }

/-- A web-search configuration with no tier available. -/
def cfgOff : WebSearchConfig :=
  { poe_api_key := Option.none, ddgs_enabled := false, wikipedia_enabled := false }

/-- Web-search oracles where every live tier yields nothing. -/
def oraclesOff : WebSearchOracles :=
  { poe_outcome := Option.none, ddgs_outcome := Option.none,
    wiki_outcome := Option.none, now := "2026-01-01T00:00:00" }

/-- A concrete `current` weather sub-dict. -/
def currentC9 : PyVal :=
  PyVal.dict [("temperature", PyVal.int 20), ("description", PyVal.str "clear sky"),
              ("humidity", PyVal.int 50)]

/-- A concrete successful weather source entry. -/
def weatherC9 : PyVal :=
  PyVal.dict [("success", PyVal.bool true), ("location", PyVal.str "Paris, France"),
              ("current", currentC9)]

/-- A concrete Aggregate whose sources hold only the weather entry (the
webSearch key is absent). -/
def aggregateC9fields : List (String × PyVal) :=
  [("query", PyVal.str "weather in Paris"), ("analysis", PyVal.dict []),
   ("sources", PyVal.dict [("weather", weatherC9)])]

/-- Weather oracles whose geocoding returns zero results. -/
def oraclesNoResults : WeatherOracles :=
  { geocode_response := HttpResp.ok { results := [] }
    weather_response := HttpResp.reqError "never reached"
    now := "2026-01-01T00:00:00" }

/-- An hourly block whose `time` has 2 entries but whose `temperature_2m`
has only 1 (a sibling array shorter than the time array). -/
def hourlyBad : HourlyData :=
  { time := ["t0", "t1"]
    temperature_2m := [20]
    relative_humidity_2m := [50, 60]
    weather_code := [0, 0]
    precipitation := Option.some [1, 2]
    precipitation_probability := Option.none
    rain := Option.none
    showers := Option.none
    snowfall := Option.none
    wind_speed_10m := Option.none }

/-- A complete `current` block. -/
def currentOkC6 : CurrentData :=
  { temperature_2m := 20, relative_humidity_2m := 50, apparent_temperature := 21,
    pressure_msl := 1000, weather_code := 0, wind_speed_10m := 5,
    wind_direction_10m := Option.none, precipitation := Option.none,
    rain := Option.none, showers := Option.none, snowfall := Option.none }

/-- A successful geocoding body. -/
def geoOkBody : GeoBody :=
  { results := [{ latitude := 48, longitude := 2, name := "Paris",
                  country := Option.some "France", admin1 := Option.none }] }

/-- Oracles delivering `hourlyBad` after a successful geocode. -/
def oraclesC6 : WeatherOracles :=
  { geocode_response := HttpResp.ok geoOkBody
    weather_response := HttpResp.ok
      { current := Option.some currentOkC6, hourly := Option.some hourlyBad,
        daily := Option.none }
    now := "2026-01-01T00:00:00" }

/-- An hourly block with only 2 (consistent) entries: `time` short, the
required arrays at least as long, one optional array present. -/
def hourlyShort : HourlyData :=
  { time := ["t0", "t1"]
    temperature_2m := [20, 21]
    relative_humidity_2m := [50, 60]
    weather_code := [0, 1]
    precipitation := Option.some [1, 2]
    precipitation_probability := Option.none
    rain := Option.none
    showers := Option.none
    snowfall := Option.none
    wind_speed_10m := Option.none }

/-! ## Ring lemmas -/

theorem get_q_append_cons {α : Type} :
    ∀ (pre : List α) (x : α) (post : List α),
      (pre ++ x :: post).get? pre.length = Option.some x := by
  intro pre
  induction pre with
  | nil => intro x post; rfl
  | cons p pre ih => intro x post; simpa using ih x post

theorem eraseIdx_append_cons {α : Type} :
    ∀ (pre : List α) (x : α) (post : List α),
      (pre ++ x :: post).eraseIdx pre.length = pre ++ post := by
  intro pre
  induction pre with
  | nil => intro x post; rfl
  | cons p pre ih => intro x post; simp [List.eraseIdx, ih x post]

theorem movePopInsert_append_cons {α : Type} (pre : List α) (x : α) (post : List α) :
    movePopInsert (pre ++ x :: post) pre.length = x :: (pre ++ post) := by
  unfold movePopInsert
  rw [get_q_append_cons, eraseIdx_append_cons]

theorem cons_eraseIdx_perm {α : Type} :
    ∀ (l : List α) (i : Nat) (x : α), l.get? i = Option.some x →
      (x :: l.eraseIdx i).Perm l := by
  intro l
  induction l with
  | nil => intro i x h; simp at h
  | cons a l ih =>
    intro i x h
    cases i with
    | zero =>
      simp only [List.get?] at h
      cases h
      simpa [List.eraseIdx] using List.Perm.refl _
    | succ i =>
      simp only [List.get?] at h
      have hswap : (x :: a :: l.eraseIdx i).Perm (a :: x :: l.eraseIdx i) :=
        List.Perm.swap a x _
      exact hswap.trans ((ih i x h).cons a)

theorem movePopInsert_perm {α : Type} (l : List α) (i : Nat) :
    (movePopInsert l i).Perm l := by
  unfold movePopInsert
  cases h : l.get? i with
  | none => exact List.Perm.refl l
  | some x => exact cons_eraseIdx_perm l i x h

theorem safe_ai_call_loop_skip {A R : Type} (f : A → Except String R)
    (st : Orchestrator A) :
    ∀ (pre l : List (String × A)) (idx : Nat) (errors : List String),
      (∀ p ∈ pre, ∃ e, f p.2 = Except.error e) →
      ∃ errs, safe_ai_call_loop f st (pre ++ l) idx errors =
        safe_ai_call_loop f st l (idx + pre.length) errs := by
  intro pre
  induction pre with
  | nil => intro l idx errors _; exact ⟨errors, by simp⟩
  | cons p pre ih =>
    intro l idx errors hfail
    obtain ⟨e, he⟩ := hfail p (by simp)
    obtain ⟨name, ai⟩ := p
    obtain ⟨errs, herrs⟩ := ih l (idx + 1) (errors ++ [name ++ ": " ++ e])
      (fun q hq => hfail q (by simp [hq]))
    refine ⟨errs, ?_⟩
    have harith : idx + 1 + pre.length = idx + (pre.length + 1) := by omega
    simp only [List.cons_append, safe_ai_call_loop, he, harith, List.length_cons,
      List.append_eq, herrs]

theorem safe_ai_call_loop_all_fail {A R : Type} (f : A → Except String R)
    (st : Orchestrator A) (err : String × A → String) :
    ∀ (l : List (String × A)) (idx : Nat) (errors : List String),
      (∀ p ∈ l, f p.2 = Except.error (err p)) →
      safe_ai_call_loop f st l idx errors =
        Except.error ("All AI models failed:\n" ++
          String.intercalate "\n" (errors ++ l.map (fun p => p.1 ++ ": " ++ err p))) := by
  intro l
  induction l with
  | nil => intro idx errors _; simp [safe_ai_call_loop]
  | cons p l ih =>
    intro idx errors hfail
    obtain ⟨name, ai⟩ := p
    have hhead : f ai = Except.error (err (name, ai)) := hfail (name, ai) (by simp)
    simp only [safe_ai_call_loop, hhead]
    rw [ih (idx + 1) (errors ++ [name ++ ": " ++ err (name, ai)])
      (fun q hq => hfail q (by simp [hq]))]
    simp

theorem safe_ai_call_loop_ok_state {A R : Type} (f : A → Except String R)
    (st : Orchestrator A) :
    ∀ (l : List (String × A)) (idx : Nat) (errors : List String) (r : R)
      (st' : Orchestrator A),
      safe_ai_call_loop f st l idx errors = Except.ok (r, st') →
      st' = st ∨ ∃ (i : Nat) (x : String × A),
        st' = { ai_models := movePopInsert st.ai_models i,
                ai_name := x.1, current_ai := Option.some x.2 } := by
  intro l
  induction l with
  | nil => intro idx errors r st' h; simp [safe_ai_call_loop] at h
  | cons p l ih =>
    intro idx errors r st' h
    obtain ⟨name, ai⟩ := p
    simp only [safe_ai_call_loop] at h
    cases hf : f ai with
    | ok result =>
      rw [hf] at h
      by_cases hidx : 0 < idx
      · simp only [if_pos hidx] at h
        cases h
        exact Or.inr ⟨idx, (name, ai), rfl⟩
      · simp only [if_neg hidx] at h
        cases h
        exact Or.inl rfl
    | error e =>
      rw [hf] at h
      exact ih (idx + 1) (errors ++ [name ++ ": " ++ e]) r st' h

theorem ring_success_aux {A R : Type} (f : A → Except String R)
    (st : Orchestrator A) (pre post : List (String × A)) (name : String)
    (a : A) (r : R)
    (hmodels : st.ai_models = pre ++ (name, a) :: post)
    (hpre : ∀ p ∈ pre, ∃ e, f p.2 = Except.error e)
    (hne : pre ≠ [])
    (hok : f a = Except.ok r) :
    safe_ai_call f st = Except.ok (r,
      { ai_models := (name, a) :: (pre ++ post),
        ai_name := name, current_ai := Option.some a }) := by
  unfold safe_ai_call
  rw [hmodels]
  obtain ⟨errs, herrs⟩ := safe_ai_call_loop_skip f st pre ((name, a) :: post) 0 [] hpre
  rw [herrs]
  have hlen : 0 < pre.length := List.length_pos.mpr hne
  simp only [safe_ai_call_loop, hok, Nat.zero_add, if_pos hlen]
  rw [hmodels, movePopInsert_append_cons]

/-- C1: for every ring order, if the adapters before index `i` fail and
the adapter at index `i > 0` succeeds, the call returns that adapter's
result, the new order is that adapter followed by the rest in their
original relative order, the current-provider label and adapter are
updated to it, and the result is independent of the adapters after index
`i` (they are never invoked). -/
theorem ring_promotes_successful_fallback {A R : Type} (f : A → Except String R)
    (st : Orchestrator A) (pre post : List (String × A)) (name : String)
    (a : A) (r : R)
    (hmodels : st.ai_models = pre ++ (name, a) :: post)
    (hpre : ∀ p ∈ pre, ∃ e, f p.2 = Except.error e)
    (hne : pre ≠ [])
    (hok : f a = Except.ok r) :
    safe_ai_call f st = Except.ok (r,
      { ai_models := (name, a) :: (pre ++ post),
        ai_name := name, current_ai := Option.some a }) ∧
    ∀ g : A → Except String R,
      (∀ p ∈ pre, ∃ e, g p.2 = Except.error e) → g a = Except.ok r →
      safe_ai_call g st = Except.ok (r,
        { ai_models := (name, a) :: (pre ++ post),
          ai_name := name, current_ai := Option.some a }) := by
  refine ⟨ring_success_aux f st pre post name a r hmodels hpre hne hok, ?_⟩
  intro g hg1 hg2
  exact ring_success_aux g st pre post name a r hmodels hg1 hne hg2

/-- C1 witness: order [A, B, C] with A failing and B succeeding yields
result from B and new order [B, A, C]. -/
theorem ring_promotes_successful_fallback_witness :
    safe_ai_call (id : Except String Nat → Except String Nat)
      { ai_models := [("A", Except.error "down"), ("B", Except.ok 2), ("C", Except.ok 3)],
        ai_name := "A", current_ai := Option.some (Except.error "down") } =
    Except.ok (2,
      { ai_models := [("B", Except.ok 2), ("A", Except.error "down"), ("C", Except.ok 3)],
        ai_name := "B", current_ai := Option.some (Except.ok 2) }) := by
  have h := ring_promotes_successful_fallback
    (id : Except String Nat → Except String Nat)
    { ai_models := [("A", Except.error "down"), ("B", Except.ok 2), ("C", Except.ok 3)],
      ai_name := "A", current_ai := Option.some (Except.error "down") }
    [("A", Except.error "down")] [("C", Except.ok 3)] "B" (Except.ok 2) 2
    rfl
    (by intro p hp; simp only [List.mem_singleton] at hp; subst hp; exact ⟨"down", rfl⟩)
    (by simp)
    rfl
  exact h.1

/-- C2: if every adapter in the ring fails, the ring call fails with the
`All AI models failed` error whose body enumerates, in ring order, exactly
one `name: error` entry per adapter (so exactly N entries for N adapters,
one attempt each). -/
theorem ring_all_fail_enumerates {A R : Type} (f : A → Except String R)
    (st : Orchestrator A) (err : String × A → String)
    (hfail : ∀ p ∈ st.ai_models, f p.2 = Except.error (err p)) :
    safe_ai_call f st = Except.error ("All AI models failed:\n" ++
      String.intercalate "\n" (st.ai_models.map (fun p => p.1 ++ ": " ++ err p))) ∧
    (st.ai_models.map (fun p => p.1 ++ ": " ++ err p)).length = st.ai_models.length := by
  constructor
  · unfold safe_ai_call
    rw [safe_ai_call_loop_all_fail f st err st.ai_models 0 [] hfail]
    simp
  · simp

/-- C2 witness: two adapters, both failing, produce the two-entry error. -/
theorem ring_all_fail_enumerates_witness :
    safe_ai_call (id : Except String Nat → Except String Nat)
      { ai_models := [("A", Except.error "a down"), ("B", Except.error "b down")],
        ai_name := "A", current_ai := Option.none } =
    Except.error "All AI models failed:\nA: a down\nB: b down" := by
  have h := ring_all_fail_enumerates (id : Except String Nat → Except String Nat)
    { ai_models := [("A", Except.error "a down"), ("B", Except.error "b down")],
      ai_name := "A", current_ai := Option.none }
    (fun p => match p.2 with | Except.error e => e | Except.ok _ => "")
    (by
      intro p hp
      simp only [List.mem_cons, List.not_mem_nil, or_false] at hp
      rcases hp with hp | hp <;> subst hp <;> rfl)
  exact h.1

/-- C10: a success of the front adapter returns its result and leaves the
ring state (order, label, current adapter) exactly unchanged, and every
successful ring call leaves the adapter list a permutation of its
original membership. -/
theorem ring_front_success_frame {A R : Type} (f : A → Except String R)
    (st : Orchestrator A) (name : String) (a : A) (rest : List (String × A))
    (r : R)
    (h1 : st.ai_models = (name, a) :: rest)
    (h2 : f a = Except.ok r) :
    safe_ai_call f st = Except.ok (r, st) ∧
    ∀ (R2 : Type) (g : A → Except String R2) (r2 : R2) (st2 : Orchestrator A),
      safe_ai_call g st = Except.ok (r2, st2) → st2.ai_models.Perm st.ai_models := by
  constructor
  · unfold safe_ai_call
    rw [h1]
    simp [safe_ai_call_loop, h2]
  · intro R2 g r2 st2 hcall
    rcases safe_ai_call_loop_ok_state g st st.ai_models 0 [] r2 st2 hcall with
      h | ⟨i, x, hx⟩
    · rw [h]
    · rw [hx]
      exact movePopInsert_perm st.ai_models i

/-- C10 witness: a front success on the order [A, B] returns the result
with the state untouched. -/
theorem ring_front_success_frame_witness :
    safe_ai_call (id : Except String Nat → Except String Nat)
      { ai_models := [("A", Except.ok 5), ("B", Except.error "down")],
        ai_name := "A", current_ai := Option.some (Except.ok 5) } =
    Except.ok (5,
      { ai_models := [("A", Except.ok 5), ("B", Except.error "down")],
        ai_name := "A", current_ai := Option.some (Except.ok 5) }) := by
  have h := ring_front_success_frame (id : Except String Nat → Except String Nat)
    { ai_models := [("A", Except.ok 5), ("B", Except.error "down")],
      ai_name := "A", current_ai := Option.some (Except.ok 5) }
    "A" (Except.ok 5) [("B", Except.error "down")] 5 rfl rfl
  exact h.1

/-! ## Analysis fallback lemmas -/

theorem safe_json_loads_all_fail (jl : String → Option PyVal)
    (hjl : ∀ s, jl s = Option.none) (text : String) (d : Option PyVal) :
    safe_json_loads jl text d = pyOrEmptyDict d := by
  unfold safe_json_loads
  cases hb : reSearchBraces text.trim.toList
  all_goals
    simp only [hjl, hb]
    split
    · rfl
    · split <;> rfl

theorem safe_extract_all_fail (jl : String → Option PyVal)
    (hjl : ∀ s, jl s = Option.none) (text : String) (v : PyVal)
    (hv : safe_extract_json_from_text jl text = Option.some v) :
    v = PyVal.dict [] := by
  unfold safe_extract_json_from_text at hv
  by_cases he : text.isEmpty
  · rw [if_pos he] at hv
    cases hv
  · rw [if_neg he] at hv
    cases hb : reSearchBraces text.toList with
    | some sub =>
      rw [hb] at hv
      have hv' : Option.some (safe_json_loads jl (String.mk sub) Option.none) =
          Option.some v := hv
      rw [safe_json_loads_all_fail jl hjl (String.mk sub) Option.none] at hv'
      injection hv' with h
      rw [← h]
      rfl
    | none =>
      rw [hb] at hv
      have hv' : (Option.none : Option PyVal) = Option.some v := hv
      cases hv'

/-- C3: if the provider call raises, or the provider's structured output
fails to parse (the `json.loads` oracle rejects every candidate string the
tolerant parse chain tries), `analyze_query` returns exactly the heuristic
keyword default — an analysis is always produced, no parse exception
propagates — and that default's `needsWeatherData` is literal
weather-keyword matching on the lowercased raw query. -/
theorem analyze_always_defaults_on_failure (query : String)
    (jl : String → Option PyVal) (gen : Except String String)
    (hfail : (∃ e, gen = Except.error e) ∨ ∀ s, jl s = Option.none) :
    analyze_query jl gen query = default_analysis query ∧
    pyGet (analyze_query jl gen query) "needsWeatherData" =
      Option.some (PyVal.bool
        (["weather", "temperature", "rain", "forecast", "climate"].any
          (fun w => pyIn w (lowerStr query)))) := by
  have hmain : analyze_query jl gen query = default_analysis query := by
    rcases hfail with ⟨e, he⟩ | hjl
    · rw [he]
      rfl
    · cases gen with
      | error e => rfl
      | ok text =>
        unfold analyze_query
        have hsl : safe_json_loads jl text Option.none = PyVal.dict [] :=
          safe_json_loads_all_fail jl hjl text Option.none
        cases hp : safe_extract_json_from_text jl text with
        | none => simp [hp, hsl, pyTruthy]
        | some v =>
          have hv : v = PyVal.dict [] := safe_extract_all_fail jl hjl text v hp
          subst hv
          simp [hp, hsl, pyTruthy]
  refine ⟨hmain, ?_⟩
  rw [hmain]
  rfl

/-- C3 witness: a raised provider call on a weather query yields the
keyword default. -/
theorem analyze_always_defaults_on_failure_witness :
    analyze_query (fun _ => Option.none) (Except.error "boom") "weather in paris" =
      default_analysis "weather in paris" ∧
    pyGet (analyze_query (fun _ => Option.none) (Except.error "boom") "weather in paris")
        "needsWeatherData" =
      Option.some (PyVal.bool
        (["weather", "temperature", "rain", "forecast", "climate"].any
          (fun w => pyIn w (lowerStr "weather in paris")))) :=
  analyze_always_defaults_on_failure "weather in paris" (fun _ => Option.none)
    (Except.error "boom") (Or.inl ⟨"boom", rfl⟩)

/-! ## Pipeline lemmas -/

theorem web_step_keys (env : DataEnv) (query : String) (analysis : PyVal) :
    (web_step env query analysis).1.map Prod.fst = [] ∨
    (web_step env query analysis).1.map Prod.fst = ["webSearch"] := by
  unfold web_step
  split
  · split <;> simp
  · simp

theorem weather_step_keys (env : DataEnv) (analysis : PyVal) :
    (weather_step env analysis).1.map Prod.fst = [] ∨
    (weather_step env analysis).1.map Prod.fst = ["weather"] := by
  unfold weather_step
  split
  · split <;> simp
  · simp

theorem agri_step_keys (env : DataEnv) (analysis : PyVal) :
    (agri_step env analysis).1.map Prod.fst = [] ∨
    (agri_step env analysis).1.map Prod.fst = ["agriculture", "soil"] := by
  unfold agri_step
  split
  · split
    · split <;> simp
    · simp
  · simp

theorem web_step_error (env : DataEnv) (query : String) (analysis : PyVal)
    (e : String)
    (he : env.web_search query (pyGetD analysis "searchKeywords"
      (pyGetD analysis "keywords" (PyVal.list [PyVal.str query]))) = Except.error e) :
    (web_step env query analysis).1 = [] := by
  unfold web_step
  split
  · simp only [he]
  · rfl

theorem weather_step_error (env : DataEnv) (analysis : PyVal) (e : String)
    (he : env.get_weather_data (pyGetD analysis "location" PyVal.none) =
      Except.error e) :
    (weather_step env analysis).1 = [] := by
  unfold weather_step
  split
  · simp only [he]
  · rfl

theorem agri_step_error (env : DataEnv) (analysis : PyVal) (e : String)
    (he : env.get_agricultural_data (pyGetD analysis "location" PyVal.none) =
      Except.error e) :
    (agri_step env analysis).1 = [] := by
  unfold agri_step
  split
  · simp only [he]
  · rfl

theorem agri_step_soil_error (env : DataEnv) (analysis : PyVal) (a : PyVal)
    (e : String)
    (ha : env.get_agricultural_data (pyGetD analysis "location" PyVal.none) =
      Except.ok a)
    (he : env.get_soil_data (pyGetD analysis "location" PyVal.none) =
      Except.error e) :
    (agri_step env analysis).1 = [] := by
  unfold agri_step
  split
  · simp only [ha, he]
  · rfl

/-- C4: when the analysis sets needsWebSearch, needsWeatherData,
needsAgriculturalData and needsCodeGeneration all to false,
`process_query` makes exactly two ring calls — analyze then one
answer_directly — returning the direct answer, and never invokes the
web-search, weather, agriculture or soil clients. -/
theorem pipeline_direct_answer_branch (env : DataEnv) (st : Orchestrator Adapter)
    (query : String) (analysis : PyVal) (st1 : Orchestrator Adapter)
    (ans : String) (st2 : Orchestrator Adapter)
    (h1 : safe_ai_call_analyze st query = Except.ok (analysis, st1))
    (h2 : pyGet analysis "needsCodeGeneration" = Option.some (PyVal.bool false))
    (h3 : pyGet analysis "needsWebSearch" = Option.some (PyVal.bool false))
    (h4 : pyGet analysis "needsWeatherData" = Option.some (PyVal.bool false))
    (h5 : pyGet analysis "needsAgriculturalData" = Option.some (PyVal.bool false))
    (h6 : safe_ai_call_answer st1 query = Except.ok (ans, st2)) :
    process_query env st query =
      (Except.ok ans, st2,
       [Event.ringCall "analyze_query", Event.ringCall "answer_directly"]) ∧
    (process_query env st query).2.2.count (Event.ringCall "answer_directly") = 1 ∧
    Event.webSearchCall ∉ (process_query env st query).2.2 ∧
    Event.weatherCall ∉ (process_query env st query).2.2 ∧
    Event.agricultureCall ∉ (process_query env st query).2.2 ∧
    Event.soilCall ∉ (process_query env st query).2.2 := by
  have hmain : process_query env st query =
      (Except.ok ans, st2,
       [Event.ringCall "analyze_query", Event.ringCall "answer_directly"]) := by
    simp [process_query, h1, pyGetD, h2, h3, h4, h5, pyTruthy, h6]
  refine ⟨hmain, ?_, ?_, ?_, ?_, ?_⟩ <;> rw [hmain]
  · exact (by decide : List.count (Event.ringCall "answer_directly")
      [Event.ringCall "analyze_query", Event.ringCall "answer_directly"] = 1)
  · exact (by decide : Event.webSearchCall ∉
      [Event.ringCall "analyze_query", Event.ringCall "answer_directly"])
  · exact (by decide : Event.weatherCall ∉
      [Event.ringCall "analyze_query", Event.ringCall "answer_directly"])
  · exact (by decide : Event.agricultureCall ∉
      [Event.ringCall "analyze_query", Event.ringCall "answer_directly"])
  · exact (by decide : Event.soilCall ∉
      [Event.ringCall "analyze_query", Event.ringCall "answer_directly"])

/-- C4 witness: a single-adapter ring whose analysis reports all four
flags false answers directly with no source-client event. -/
theorem pipeline_direct_answer_branch_witness :
    process_query envAllFail ringDirect "What is NDVI?" =
    (Except.ok "direct answer", ringDirect,
      [Event.ringCall "analyze_query", Event.ringCall "answer_directly"]) := by
  exact (pipeline_direct_answer_branch envAllFail ringDirect "What is NDVI?"
    analysisAllFalse ringDirect "direct answer" ringDirect
    rfl rfl rfl rfl rfl rfl).1

/-- C5: in the data-gathering branch, every individual source-fetch
failure is caught: a failed web search, weather, agriculture or soil call
leaves the corresponding key(s) absent from the Aggregate's sources, the
remaining steps still run, and the pipeline always proceeds to the
synthesize ring call, whose outcome alone determines the result — a fetch
error is never escalated to the caller. -/
theorem pipeline_source_failure_degrades (env : DataEnv)
    (st : Orchestrator Adapter) (query : String) (analysis : PyVal)
    (st1 : Orchestrator Adapter)
    (h1 : safe_ai_call_analyze st query = Except.ok (analysis, st1))
    (h2 : pyTruthy (pyGetD analysis "needsCodeGeneration" PyVal.none) = false)
    (h3 : (pyTruthy (pyGetD analysis "needsWebSearch" PyVal.none) ||
           pyTruthy (pyGetD analysis "needsWeatherData" PyVal.none) ||
           pyTruthy (pyGetD analysis "needsAgriculturalData" PyVal.none)) = true) :
    (∀ e, env.web_search query (pyGetD analysis "searchKeywords"
        (pyGetD analysis "keywords" (PyVal.list [PyVal.str query]))) =
        Except.error e →
      "webSearch" ∉ (gather_sources env query analysis).1.map Prod.fst) ∧
    (∀ e, env.get_weather_data (pyGetD analysis "location" PyVal.none) =
        Except.error e →
      "weather" ∉ (gather_sources env query analysis).1.map Prod.fst) ∧
    (∀ e, env.get_agricultural_data (pyGetD analysis "location" PyVal.none) =
        Except.error e →
      "agriculture" ∉ (gather_sources env query analysis).1.map Prod.fst ∧
      "soil" ∉ (gather_sources env query analysis).1.map Prod.fst) ∧
    (∀ a e, env.get_agricultural_data (pyGetD analysis "location" PyVal.none) =
        Except.ok a →
      env.get_soil_data (pyGetD analysis "location" PyVal.none) = Except.error e →
      "agriculture" ∉ (gather_sources env query analysis).1.map Prod.fst ∧
      "soil" ∉ (gather_sources env query analysis).1.map Prod.fst) ∧
    process_query env st query =
      (match safe_ai_call_synth st1 query (PyVal.dict
          [("query", PyVal.str query), ("analysis", analysis),
           ("sources", PyVal.dict (gather_sources env query analysis).1)]) with
       | Except.ok (r, st2) =>
         (Except.ok r, st2,
          [Event.ringCall "analyze_query"] ++ (gather_sources env query analysis).2 ++
            [Event.ringCall "synthesize_response"])
       | Except.error e =>
         (Except.error e, st1,
          [Event.ringCall "analyze_query"] ++ (gather_sources env query analysis).2 ++
            [Event.ringCall "synthesize_response"])) := by
  have hkeys : (gather_sources env query analysis).1.map Prod.fst =
      (web_step env query analysis).1.map Prod.fst ++
      (weather_step env analysis).1.map Prod.fst ++
      (agri_step env analysis).1.map Prod.fst := by
    simp [gather_sources]
  refine ⟨?_, ?_, ?_, ?_, ?_⟩
  · intro e he
    rw [hkeys, web_step_error env query analysis e he]
    rcases weather_step_keys env analysis with hw | hw <;>
      rcases agri_step_keys env analysis with ha | ha <;>
      simp [hw, ha]
  · intro e he
    rw [hkeys, weather_step_error env analysis e he]
    rcases web_step_keys env query analysis with hw | hw <;>
      rcases agri_step_keys env analysis with ha | ha <;>
      simp [hw, ha]
  · intro e he
    rw [hkeys, agri_step_error env analysis e he]
    constructor <;>
      (rcases web_step_keys env query analysis with hw | hw <;>
        rcases weather_step_keys env analysis with hh | hh <;>
        simp [hw, hh])
  · intro a e ha he
    rw [hkeys, agri_step_soil_error env analysis a e ha he]
    constructor <;>
      (rcases web_step_keys env query analysis with hw | hw <;>
        rcases weather_step_keys env analysis with hh | hh <;>
        simp [hw, hh])
  · simp only [process_query, h1, h2, h3, Bool.false_eq_true, if_false,
      Bool.not_true, Bool.false_eq_true, if_false]

/-- C5 witness: web search requested and failing, weather succeeding —
the webSearch key is absent, the weather step still ran, and synthesis
produced the answer. -/
theorem pipeline_source_failure_degrades_witness :
    "webSearch" ∉
      (gather_sources envWebFails "What is the weather in Paris?" analysisWebWeather).1.map
        Prod.fst ∧
    process_query envWebFails ringWebWeather "What is the weather in Paris?" =
      (Except.ok "synth", ringWebWeather,
       [Event.ringCall "analyze_query", Event.webSearchCall, Event.weatherCall,
        Event.ringCall "synthesize_response"]) := by
  have h := pipeline_source_failure_degrades envWebFails ringWebWeather
    "What is the weather in Paris?" analysisWebWeather ringWebWeather rfl rfl rfl
  refine ⟨h.1 "network down" rfl, ?_⟩
  rw [h.2.2.2.2]
  rfl

/-- C7: whenever every live search tier is skipped (unconfigured /
unavailable) or fails to produce a successful envelope, `search` returns
the deterministic mock envelope, which carries success:true and
mock:true — the client never raises. -/
theorem search_falls_back_to_mock (cfg : WebSearchConfig) (o : WebSearchOracles)
    (query : String) (keywords : List String)
    (hpoe : ∀ r, _search_poe_bot cfg o query keywords = Option.some r →
      r.success = false)
    (hddg : ∀ r, _search_duckduckgo cfg o query keywords = Option.some r →
      r.success = false)
    (hwiki : ∀ r, _search_wikipedia cfg o query = Option.some r →
      r.success = false) :
    webSearchSearch cfg o query keywords = _mock_search o.now query ∧
    (_mock_search o.now query).success = true ∧
    (_mock_search o.now query).mock = true := by
  refine ⟨?_, rfl, rfl⟩
  unfold webSearchSearch
  have hp : (if pyTruthyOptStr cfg.poe_api_key then
      match _search_poe_bot cfg o query keywords with
      | Option.some r => if r.success then Option.some r else Option.none
      | Option.none => Option.none
    else Option.none) = (Option.none : Option SearchResult) := by
    split
    · cases hh : _search_poe_bot cfg o query keywords with
      | none => rfl
      | some r => simp [hpoe r hh]
    · rfl
  have hd : (if cfg.ddgs_enabled then
      match _search_duckduckgo cfg o query keywords with
      | Option.some r => if r.success then Option.some r else Option.none
      | Option.none => Option.none
    else Option.none) = (Option.none : Option SearchResult) := by
    split
    · cases hh : _search_duckduckgo cfg o query keywords with
      | none => rfl
      | some r => simp [hddg r hh]
    · rfl
  have hw : (if cfg.wikipedia_enabled then
      match _search_wikipedia cfg o query with
      | Option.some r => if r.success then Option.some r else Option.none
      | Option.none => Option.none
    else Option.none) = (Option.none : Option SearchResult) := by
    split
    · cases hh : _search_wikipedia cfg o query with
      | none => rfl
      | some r => simp [hwiki r hh]
    · rfl
  simp only [hp, hd, hw]

/-- C7 witness: no key, no DuckDuckGo, no Wikipedia — `search("x", [])` is
the mock envelope. -/
theorem search_falls_back_to_mock_witness :
    webSearchSearch cfgOff oraclesOff "x" [] = _mock_search oraclesOff.now "x" ∧
    (_mock_search oraclesOff.now "x").success = true ∧
    (_mock_search oraclesOff.now "x").mock = true :=
  search_falls_back_to_mock cfgOff oraclesOff "x" []
    (fun r h => by exact Option.noConfusion h)
    (fun r h => by exact Option.noConfusion h)
    (fun r h => by exact Option.noConfusion h)

/-! ## Synthesis lemmas -/

theorem append_isEmpty_false (s t : String) (hs : s ≠ "") :
    ((s ++ t).isEmpty) = false := by
  cases hh : (s ++ t).isEmpty with
  | false => rfl
  | true =>
    exfalso
    have heq : s ++ t = "" := (String.isEmpty_iff (s ++ t)).mp hh
    have hdata0 := congrArg String.data heq
    rw [String.data_append] at hdata0
    have hdata : s.data ++ t.data = [] := hdata0
    have h1 : s.data = [] := (List.append_eq_nil.mp hdata).1
    exact hs (String.ext h1)

theorem append_isEmpty_false_right (s t : String) (ht : t ≠ "") :
    ((s ++ t).isEmpty) = false := by
  cases hh : (s ++ t).isEmpty with
  | false => rfl
  | true =>
    exfalso
    have heq : s ++ t = "" := (String.isEmpty_iff (s ++ t)).mp hh
    have hdata0 := congrArg String.data heq
    rw [String.data_append] at hdata0
    have hdata : s.data ++ t.data = [] := hdata0
    have h1 : t.data = [] := (List.append_eq_nil.mp hdata).2
    exact ht (String.ext h1)

/-- C9: an Aggregate whose sources mapping lacks the webSearch key but
holds a successful, well-formed weather entry is accepted by
`synthesize_response`: the context build succeeds with the weather-only
section (no missing-key error), and the result is exactly the generation
outcome on that weather-only prompt (with the apology fallback if the
model call raises) — as if no web data were present. -/
theorem synthesize_accepts_missing_webSearch (gen : String → Except String String)
    (query : String) (dfields srcFields : List (String × PyVal)) (w c : PyVal)
    (lv tv dv hv : PyVal)
    (hd : dictGet dfields "sources" = Option.some (PyVal.dict srcFields))
    (hnoweb : dictGet srcFields "webSearch" = Option.none)
    (hw : dictGet srcFields "weather" = Option.some w)
    (hnoagri : dictGet srcFields "agriculture" = Option.none)
    (hws : pyGetD w "success" (PyVal.bool false) = PyVal.bool true)
    (hloc : pyIndexKey w "location" = Except.ok lv)
    (hcur : pyIndexKey w "current" = Except.ok c)
    (htemp : pyIndexKey c "temperature" = Except.ok tv)
    (hdesc : pyIndexKey c "description" = Except.ok dv)
    (hhum : pyIndexKey c "humidity" = Except.ok hv) :
    build_context_info (PyVal.dict dfields) = Except.ok
      ("\n**Weather Data:**\n" ++ "Location: " ++ pyStr lv ++ "\n" ++
       "Temperature: " ++ pyStr tv ++ "Â°C\n" ++
       "Conditions: " ++ pyStr dv ++ "\n" ++
       "Humidity: " ++ pyStr hv ++ "%\n") ∧
    synthesize_response gen query (PyVal.dict dfields) =
      (match gen (synthesisPrompt query
          ("I\x27ve gathered this real-time information for you:\n" ++
           ("\n**Weather Data:**\n" ++ "Location: " ++ pyStr lv ++ "\n" ++
            "Temperature: " ++ pyStr tv ++ "Â°C\n" ++
            "Conditions: " ++ pyStr dv ++ "\n" ++
            "Humidity: " ++ pyStr hv ++ "%\n"))) with
       | Except.ok t => Except.ok t
       | Except.error _ =>
         Except.ok "I encountered an error while processing your query. Please try again or rephrase your question.") := by
  have hsrcD : pyGetD (PyVal.dict dfields) "sources" (PyVal.dict []) =
      PyVal.dict srcFields := by
    simp [pyGetD, pyGet, hd]
  have hhasweb : pyTruthy (pyGetD (pyGetD
      (pyGetD (PyVal.dict dfields) "sources" (PyVal.dict [])) "webSearch"
      (PyVal.dict [])) "success" (PyVal.bool false)) = false := by
    rw [hsrcD]
    simp [pyGetD, pyGet, hnoweb, dictGet, pyTruthy]
  have hwD : pyGetD (pyGetD (PyVal.dict dfields) "sources" (PyVal.dict []))
      "weather" (PyVal.dict []) = w := by
    rw [hsrcD]
    simp [pyGetD, pyGet, hw]
  have hhasweather : pyTruthy (pyGetD (pyGetD
      (pyGetD (PyVal.dict dfields) "sources" (PyVal.dict [])) "weather"
      (PyVal.dict [])) "success" (PyVal.bool false)) = true := by
    rw [hwD, hws]
    rfl
  have hhasagri : pyTruthy (pyGetD (pyGetD
      (pyGetD (PyVal.dict dfields) "sources" (PyVal.dict [])) "agriculture"
      (PyVal.dict [])) "success" (PyVal.bool false)) = false := by
    rw [hsrcD]
    simp [pyGetD, pyGet, hnoagri, dictGet, pyTruthy]
  have hs1 : pyIndexKey (PyVal.dict dfields) "sources" =
      Except.ok (PyVal.dict srcFields) := by
    simp [pyIndexKey, hd]
  have hs2 : pyIndexKey (PyVal.dict srcFields) "weather" = Except.ok w := by
    simp [pyIndexKey, hw]
  have hweatherc : weather_context (PyVal.dict dfields) true = Except.ok
      ("\n**Weather Data:**\n" ++ "Location: " ++ pyStr lv ++ "\n" ++
       "Temperature: " ++ pyStr tv ++ "Â°C\n" ++
       "Conditions: " ++ pyStr dv ++ "\n" ++
       "Humidity: " ++ pyStr hv ++ "%\n") := by
    unfold weather_context
    simp [hs1, hs2, hloc, hcur, htemp, hdesc, hhum]
  have hctx : build_context_info (PyVal.dict dfields) = Except.ok
      ("\n**Weather Data:**\n" ++ "Location: " ++ pyStr lv ++ "\n" ++
       "Temperature: " ++ pyStr tv ++ "Â°C\n" ++
       "Conditions: " ++ pyStr dv ++ "\n" ++
       "Humidity: " ++ pyStr hv ++ "%\n") := by
    unfold build_context_info
    simp only [hhasweb, hhasweather, hhasagri]
    have hwebc : web_context (PyVal.dict dfields) false = Except.ok "" := rfl
    have hagric : agri_context (PyVal.dict dfields) false = Except.ok "" := rfl
    simp only [hwebc, hweatherc, hagric]
    rw [String.empty_append, String.append_empty]
  refine ⟨hctx, ?_⟩
  unfold synthesize_response
  rw [hctx]
  have hne2 : (("\n**Weather Data:**\nLocation: " ++ pyStr lv ++ "\n" ++
      "Temperature: " ++ pyStr tv ++ "Â°C\n" ++
      "Conditions: " ++ pyStr dv ++ "\n" ++
      "Humidity: " ++ pyStr hv ++ "%\n").isEmpty) = false :=
    append_isEmpty_false_right _ "%\n" (by decide)
  simp [hne2]

/-- C9 witness: the concrete weather-only Aggregate is synthesized
without any missing-key error. -/
theorem synthesize_accepts_missing_webSearch_witness :
    build_context_info (PyVal.dict aggregateC9fields) = Except.ok
      ("\n**Weather Data:**\n" ++ "Location: " ++ pyStr (PyVal.str "Paris, France") ++ "\n" ++
       "Temperature: " ++ pyStr (PyVal.int 20) ++ "Â°C\n" ++
       "Conditions: " ++ pyStr (PyVal.str "clear sky") ++ "\n" ++
       "Humidity: " ++ pyStr (PyVal.int 50) ++ "%\n") ∧
    synthesize_response (fun _ => Except.ok "answer") "weather in Paris"
        (PyVal.dict aggregateC9fields) =
      (match (fun (_ : String) => (Except.ok "answer" : Except String String))
          (synthesisPrompt "weather in Paris"
            ("I\x27ve gathered this real-time information for you:\n" ++
             ("\n**Weather Data:**\n" ++ "Location: " ++ pyStr (PyVal.str "Paris, France") ++ "\n" ++
              "Temperature: " ++ pyStr (PyVal.int 20) ++ "Â°C\n" ++
              "Conditions: " ++ pyStr (PyVal.str "clear sky") ++ "\n" ++
              "Humidity: " ++ pyStr (PyVal.int 50) ++ "%\n"))) with
       | Except.ok t => Except.ok t
       | Except.error _ =>
         Except.ok "I encountered an error while processing your query. Please try again or rephrase your question.") :=
  synthesize_accepts_missing_webSearch (fun _ => Except.ok "answer")
    "weather in Paris" aggregateC9fields [("weather", weatherC9)] weatherC9 currentC9
    (PyVal.str "Paris, France") (PyVal.int 20) (PyVal.str "clear sky") (PyVal.int 50)
    rfl rfl rfl rfl rfl rfl rfl rfl rfl rfl

/-! ## Weather lemmas -/

theorem get_q_eq_some_getD {α : Type} :
    ∀ (l : List α) (i : Nat) (d : α), i < l.length →
      l.get? i = Option.some (l.getD i d) := by
  intro l
  induction l with
  | nil => intro i d h; simp at h
  | cons a l ih =>
    intro i d h
    cases i with
    | zero => rfl
    | succ i =>
      have := ih i d (by simpa using h)
      simpa [List.get?, List.getD] using this

theorem buildHourlyEntry_ok (h : HourlyData) (i : Nat)
    (h1 : i < h.time.length) (h2 : i < h.temperature_2m.length)
    (h3 : i < h.weather_code.length) (h4 : i < h.relative_humidity_2m.length) :
    buildHourlyEntry h i = Except.ok (hourlyEntryOf h i) := by
  unfold buildHourlyEntry pyListIndex hourlyEntryOf
  rw [get_q_eq_some_getD h.time i "" h1, get_q_eq_some_getD h.temperature_2m i 0 h2,
    get_q_eq_some_getD h.weather_code i 0 h3,
    get_q_eq_some_getD h.relative_humidity_2m i 0 h4]

theorem buildHourlyList_map (h : HourlyData) :
    ∀ l : List Nat,
      (∀ i ∈ l, i < h.time.length ∧ i < h.temperature_2m.length ∧
        i < h.weather_code.length ∧ i < h.relative_humidity_2m.length) →
      buildHourlyList h l = Except.ok (l.map (hourlyEntryOf h)) := by
  intro l
  induction l with
  | nil => intro _; rfl
  | cons i rest ih =>
    intro hb
    obtain ⟨h1, h2, h3, h4⟩ := hb i (by simp)
    have hhead := buildHourlyEntry_ok h i h1 h2 h3 h4
    have htail := ih (fun j hj => hb j (by simp [hj]))
    simp only [buildHourlyList, hhead, htail, List.map_cons]

/-- C6 counterexample: an hourly payload whose `time` has 2 entries but
whose `temperature_2m` has 1 makes the aggregation index out of bounds
(`IndexError`), so `get_weather_data` returns the failure envelope
instead of aggregating the available entries. -/
theorem weather_sibling_short_array_indexerror :
    get_weather_data oraclesC6 "Paris" = WeatherEnvelope.failure
      "list index out of range" "Paris"
      "Unable to fetch weather data for \"Paris\". list index out of range" ∧
    buildHourlyForecast hourlyBad = Except.error "list index out of range" := by
  constructor <;> rfl

/-- C6 (amended): when the hourly `time` array has fewer than 24 entries
and the directly-indexed arrays (`temperature_2m`,
`relative_humidity_2m`, `weather_code`) have at least as many entries as
`time`, the aggregation does not raise: the forecast covers exactly the
available entries, missing indices of the guarded optional arrays count
as 0, and the today / next-24h sums range over exactly those available
entries. -/
theorem weather_short_hourly_sums_available (h : HourlyData)
    (hlt : h.time.length < 24)
    (h1 : h.time.length ≤ h.temperature_2m.length)
    (h2 : h.time.length ≤ h.relative_humidity_2m.length)
    (h3 : h.time.length ≤ h.weather_code.length) :
    buildHourlyForecast h = Except.ok ((List.range h.time.length).map (hourlyEntryOf h)) ∧
    ((List.range h.time.length).map (hourlyEntryOf h)).length = h.time.length ∧
    todayTotal (fun e => e.precipitation) ((List.range h.time.length).map (hourlyEntryOf h)) =
      ((List.range h.time.length).map (fun i => hourlyOptField h.precipitation i)).sum ∧
    todayTotal (fun e => e.rain) ((List.range h.time.length).map (hourlyEntryOf h)) =
      ((List.range h.time.length).map (fun i => hourlyOptField h.rain i)).sum ∧
    todayTotal (fun e => e.showers) ((List.range h.time.length).map (hourlyEntryOf h)) =
      ((List.range h.time.length).map (fun i => hourlyOptField h.showers i)).sum ∧
    next24hTotal (fun e => e.precipitation) ((List.range h.time.length).map (hourlyEntryOf h)) =
      ((List.range h.time.length).map (fun i => hourlyOptField h.precipitation i)).sum := by
  have hmin : min 24 h.time.length = h.time.length := by omega
  have hforecast : buildHourlyForecast h =
      Except.ok ((List.range h.time.length).map (hourlyEntryOf h)) := by
    unfold buildHourlyForecast
    rw [hmin]
    exact buildHourlyList_map h (List.range h.time.length) (fun i hi => by
      have : i < h.time.length := List.mem_range.mp hi
      exact ⟨this, by omega, by omega, by omega⟩)
  have htake : ((List.range h.time.length).map (hourlyEntryOf h)).take 24 =
      (List.range h.time.length).map (hourlyEntryOf h) := by
    apply List.take_of_length_le
    simp
    omega
  refine ⟨hforecast, by simp, ?_, ?_, ?_, ?_⟩ <;>
    simp only [todayTotal, next24hTotal, htake, List.map_map] <;> rfl

/-- C6 amended witness: two available hourly entries are summed exactly. -/
theorem weather_short_hourly_sums_available_witness :
    buildHourlyForecast hourlyShort =
      Except.ok ((List.range hourlyShort.time.length).map (hourlyEntryOf hourlyShort)) ∧
    ((List.range hourlyShort.time.length).map (hourlyEntryOf hourlyShort)).length =
      hourlyShort.time.length ∧
    todayTotal (fun e => e.precipitation)
        ((List.range hourlyShort.time.length).map (hourlyEntryOf hourlyShort)) =
      ((List.range hourlyShort.time.length).map
        (fun i => hourlyOptField hourlyShort.precipitation i)).sum ∧
    todayTotal (fun e => e.rain)
        ((List.range hourlyShort.time.length).map (hourlyEntryOf hourlyShort)) =
      ((List.range hourlyShort.time.length).map
        (fun i => hourlyOptField hourlyShort.rain i)).sum ∧
    todayTotal (fun e => e.showers)
        ((List.range hourlyShort.time.length).map (hourlyEntryOf hourlyShort)) =
      ((List.range hourlyShort.time.length).map
        (fun i => hourlyOptField hourlyShort.showers i)).sum ∧
    next24hTotal (fun e => e.precipitation)
        ((List.range hourlyShort.time.length).map (hourlyEntryOf hourlyShort)) =
      ((List.range hourlyShort.time.length).map
        (fun i => hourlyOptField hourlyShort.precipitation i)).sum :=
  weather_short_hourly_sums_available hourlyShort (by decide) (by decide)
    (by decide) (by decide)

/-- C8: `get_weather_data` never lets an exception cross the client
boundary: a zero-result geocoding surfaces as the `success:false`
envelope with the location-not-found error and message, and in general
every call returns either a success envelope or a failure envelope whose
message embeds its error. -/
theorem weather_failures_become_envelope (o : WeatherOracles) (location : String)
    (gb : GeoBody)
    (hgeo : o.geocode_response = HttpResp.ok gb)
    (hempty : gb.results = []) :
    get_weather_data o location = WeatherEnvelope.failure
      ("Geocoding failed: Location \"" ++ location ++ "\" not found") location
      ("Unable to fetch weather data for \"" ++ location ++ "\". " ++
        ("Geocoding failed: Location \"" ++ location ++ "\" not found")) ∧
    ∀ (o' : WeatherOracles) (loc' : String),
      (∃ r, get_weather_data o' loc' = WeatherEnvelope.success r) ∨
      (∃ e, get_weather_data o' loc' = WeatherEnvelope.failure e loc'
        ("Unable to fetch weather data for \"" ++ loc' ++ "\". " ++ e)) := by
  constructor
  · unfold get_weather_data get_weather_data_core _geocode_location geocodeFromBody
    simp only [hgeo, hempty]
  · intro o' loc'
    unfold get_weather_data
    cases hc : get_weather_data_core o' loc' with
    | ok r => exact Or.inl ⟨r, by simp [hc]⟩
    | error e => exact Or.inr ⟨e, by simp [hc]⟩

/-- C8 witness: geocoding "Atlantis" with zero results yields the failure
envelope, not an exception. -/
theorem weather_failures_become_envelope_witness :
    get_weather_data oraclesNoResults "Atlantis" = WeatherEnvelope.failure
      "Geocoding failed: Location \"Atlantis\" not found" "Atlantis"
      "Unable to fetch weather data for \"Atlantis\". Geocoding failed: Location \"Atlantis\" not found" :=
  (weather_failures_become_envelope oraclesNoResults "Atlantis"
    { results := [] } rfl rfl).1
